import Mathlib

/-!
# Selector chains and their resolution (package `core/internal/selection`)

A shallow embedding of `selection.go` and `elements.go`.

* A Go function returning `(v, err)` is a function returning `Outcome.ret v err`, with
  `err = none` for a `nil` error; a run-time panic of the Go code is `Outcome.panic`.
* The remote document is reached only through `GetElements`. A provider is a function of the
  criterion and of the state of the outside world (type `σ`, arbitrary), returning what the
  call returns and the state after the call. A function of the model that makes no provider
  call leaves the state as it found it.
* `E` is the type of (non-nil) element handles; `dom e` is the `GetElements` method of the
  handle `e`.
* Go's `int` is modelled by `Int`.
-/

set_option autoImplicit false

namespace Agouti

/-! ## Data model -/

/-- The struct `types.Selector`: one criterion of a chain. -/
structure Selector where
  Using : String
  Value : String
  Index : Int
  Indexed : Bool
deriving DecidableEq, Repr

/-- Go's type `string`, under a name that the method `Selection.String` does not shadow. -/
abbrev GoString : Type := String

/-- What a Go call does: it returns a value and an error (`none` is `nil`), or it panics. -/
inductive Outcome (α : Type) where
  | ret (val : α) (err : Option String)
  | panic
deriving DecidableEq, Repr

/-- The method `GetElements` of the interface `retriever`, as a function of the state of the
outside world: the returned elements and error, and the state after the call. -/
abbrev Retriever (σ E : Type) := Selector → σ → (List E × Option String) × σ

/-- The struct `Selection`; of the interface `client` only `GetElements` is kept. -/
structure Selection (σ E : Type) where
  Client : Retriever σ E
  selectors : List Selector
  acceptAll : Bool

variable {σ E : Type}

/-! ## elements.go -/

/-- The package-level `getElements(retriever, selector)`: one provider call, then indexing.
An index below zero passes the range test and the slice access panics. -/
def getElements (retriever : Retriever σ E) (selector : Selector) (st : σ) :
    Outcome (List E) × σ :=
  match retriever selector st with
  | ((_, some err), st1) => (.ret [] (some err), st1)
  | ((elements, none), st1) =>
    if selector.Indexed then
      if selector.Index ≥ (elements.length : Int) then
        (.ret [] (some ("element index out of range (>"
            ++ toString ((elements.length : Int) - 1) ++ ")")), st1)
      else
        match selector.Index with
        | Int.ofNat i =>
          match elements.get? i with
          | some element => (.ret [element] none, st1)
          | none => (.panic, st1)
        | Int.negSucc _ => (.panic, st1)
    else
      (.ret elements none, st1)

/-- The inner loop of `Selection.getElements`: `elements` is the accumulator, the first
argument the part of `lastElements` still to visit. -/
def innerLoop (dom : E → Retriever σ E) (selector : Selector) :
    List E → List E → σ → Outcome (List E) × σ
  | [], elements, st => (.ret elements none, st)
  | element :: more, elements, st =>
    match getElements (dom element) selector st with
    | (.ret subElements none, st1) => innerLoop dom selector more (elements ++ subElements) st1
    | (.ret _ (some err), st1) => (.ret [] (some err), st1)
    | (.panic, st1) => (.panic, st1)

/-- The outer loop of `Selection.getElements`, over `s.selectors[1:]`. -/
def outerLoop (dom : E → Retriever σ E) :
    List Selector → List E → σ → Outcome (List E) × σ
  | [], lastElements, st => (.ret lastElements none, st)
  | selector :: more, lastElements, st =>
    match innerLoop dom selector lastElements [] st with
    | (.ret elements none, st1) => outerLoop dom more elements st1
    | (.ret _ (some err), st1) => (.ret [] (some err), st1)
    | (.panic, st1) => (.panic, st1)

/-- The method `(s *Selection) getElements()`. -/
def Selection.getElements (dom : E → Retriever σ E) (s : Selection σ E) (st : σ) :
    Outcome (List E) × σ :=
  match s.selectors with
  | [] => (.ret [] (some "empty selection"), st)
  | first :: rest =>
    match Agouti.getElements s.Client first st with
    | (.ret lastElements none, st1) => outerLoop dom rest lastElements st1
    | (.ret _ (some err), st1) => (.ret [] (some err), st1)
    | (.panic, st1) => (.panic, st1)

/-- The method `(s *Selection) getSelectedElements()`. -/
def Selection.getSelectedElements (dom : E → Retriever σ E) (s : Selection σ E) (st : σ) :
    Outcome (List E) × σ :=
  match s.getElements dom st with
  | (.panic, st1) => (.panic, st1)
  | (.ret _ (some err), st1) => (.ret [] (some err), st1)
  | (.ret elements none, st1) =>
    if elements.length = 0 then
      (.ret [] (some "no elements found"), st1)
    else if elements.length > 1 ∧ s.acceptAll = false then
      (.ret [] (some ("method requires All() for multiple elements ("
          ++ toString elements.length ++ ") ")), st1)
    else
      (.ret elements none, st1)

/-- The method `(s *Selection) getSelectedElement()`; the returned element is `none` for
Go's `nil`. -/
def Selection.getSelectedElement (dom : E → Retriever σ E) (s : Selection σ E) (st : σ) :
    Outcome (Option E) × σ :=
  if s.acceptAll then
    (.ret none (some "method does not support All()"), st)
  else
    match s.getElements dom st with
    | (.panic, st1) => (.panic, st1)
    | (.ret _ (some err), st1) => (.ret none (some err), st1)
    | (.ret elements none, st1) =>
      if elements.length = 0 then
        (.ret none (some "no elements found"), st1)
      else if elements.length > 1 then
        (.ret none (some ("method does not support multiple elements ("
            ++ toString elements.length ++ ") ")), st1)
      else
        match elements.get? 0 with
        | some element => (.ret (some element) none, st1)
        | none => (.panic, st1)

/-! ## selection.go -/

/-- The function `newSelectors(selectors, newSelectors...)`: a fresh copy of `selectors`
followed by the new ones. -/
def newSelectors (selectors : List Selector) (more : List Selector) : List Selector :=
  ([] ++ selectors) ++ more

/-- The method `(s *Selection) At(index)`. With `last = len(s.selectors) - 1`, the test
`last < 0` is the test that the chain is empty. -/
def Selection.At (s : Selection σ E) (index : Int) : Selection σ E :=
  if h : s.selectors.length = 0 then
    ⟨s.Client, newSelectors s.selectors [], s.acceptAll⟩
  else
    let last := s.selectors.length - 1
    let newSelector : Selector :=
      { s.selectors.get ⟨last, by omega⟩ with Index := index, Indexed := true }
    ⟨s.Client, newSelectors (s.selectors.take last) [newSelector], s.acceptAll⟩

/-- The method `(s *Selection) subSelection(using, value)`. -/
def Selection.subSelection (s : Selection σ E) (using_ value : String) : Selection σ E :=
  let newSelector : Selector := { Using := using_, Value := value, Index := 0, Indexed := false }
  ⟨s.Client, newSelectors s.selectors [newSelector], s.acceptAll⟩

/-- The method `(s *Selection) mergedSelection(value)`. It reads `s.selectors[last]`, so it
is called on a non-empty chain only (`h`), as `Find` does. -/
def Selection.mergedSelection (s : Selection σ E) (value : String)
    (h : s.selectors.length ≠ 0) : Selection σ E :=
  let last := s.selectors.length - 1
  let newSelectorValue := (s.selectors.get ⟨last, by omega⟩).Value ++ " " ++ value
  let newSelector : Selector :=
    { Using := "css selector", Value := newSelectorValue, Index := 0, Indexed := false }
  ⟨s.Client, newSelectors (s.selectors.take last) [newSelector], s.acceptAll⟩

/-- The method `(s *Selection) Find(selector)`. With `last = len(s.selectors) - 1`, the test
`last >= 0` is the test that the chain is not empty. -/
def Selection.Find (s : Selection σ E) (selector : String) : Selection σ E :=
  if h : s.selectors.length = 0 then
    s.subSelection "css selector" selector
  else
    let last := s.selectors.length - 1
    if (s.selectors.get ⟨last, by omega⟩).Using = "css selector"
        ∧ (s.selectors.get ⟨last, by omega⟩).Indexed = false then
      s.mergedSelection selector h
    else
      s.subSelection "css selector" selector

/-- The method `(s *Selection) FindXPath(selector)`. -/
def Selection.FindXPath (s : Selection σ E) (selector : String) : Selection σ E :=
  s.subSelection "xpath" selector

/-- The method `(s *Selection) FindLink(text)`. -/
def Selection.FindLink (s : Selection σ E) (text : String) : Selection σ E :=
  s.subSelection "link text" text

/-- The method `(s *Selection) FindByLabel(text)`. -/
def Selection.FindByLabel (s : Selection σ E) (text : String) : Selection σ E :=
  s.FindXPath ("//input[@id=(//label[normalize-space(text())=\"" ++ text
    ++ "\"]/@for)] | //label[normalize-space(text())=\"" ++ text ++ "\"]/input")

/-- The method `(s *Selection) All()`. -/
def Selection.All (s : Selection σ E) : Selection σ E :=
  ⟨s.Client, newSelectors s.selectors [], true⟩

/-- Modelled from the spec: the method `Selector.String()` of the package `types`, which is
not among the sources. Spec 4.4: a criterion renders as `<Label>: <value>` with the label
`CSS`, `XPath` or `Link`, the value of a link in double quotes, and ` [<index>]` appended
when it is indexed. The spec names no rendering for any other strategy; the last branch is
a placeholder on which no statement below depends. -/
def Selector.String (s : Selector) : String :=
  let suffix := if s.Indexed then " [" ++ toString s.Index ++ "]" else ""
  if s.Using = "css selector" then "CSS: " ++ s.Value ++ suffix
  else if s.Using = "xpath" then "XPath: " ++ s.Value ++ suffix
  else if s.Using = "link text" then "Link: \"" ++ s.Value ++ "\"" ++ suffix
  else s.Using ++ ": " ++ s.Value ++ suffix

/-- The method `(s *Selection) String()`: the loop collecting `tags`, then
`strings.Join(tags, " | ")`. -/
def Selection.String (s : Selection σ E) : String :=
  let tags := s.selectors.foldl (fun tags selector => tags ++ [selector.String]) []
  let selection := String.intercalate " | " tags
  if s.acceptAll then selection ++ " - All" else selection

/-- The method `(s *Selection) Count()`. -/
def Selection.Count (dom : E → Retriever σ E) (s : Selection σ E) (st : σ) :
    Outcome Nat × σ :=
  match s.getElements dom st with
  | (.panic, st1) => (.panic, st1)
  | (.ret _ (some err), st1) =>
    (.ret 0 (some ("failed to select '" ++ s.String ++ "': " ++ err)), st1)
  | (.ret elements none, st1) => (.ret elements.length none, st1)

/-- The zero value `&Selection{Client: client}` from which the builders start. -/
def Selection.new (client : Retriever σ E) : Selection σ E :=
  ⟨client, [], false⟩

/-- The argument `comparable interface{}` of `EqualsElement`: a `*Selection`, or a value of
any other type (`A` is the type of such values). -/
inductive Comparable (σ E A : Type) where
  | selection (s : Selection σ E)
  | other (a : A)

/-- The method `IsEqualTo` of an element handle, as a function of the other handle and of the
state of the outside world. -/
abbrev EqualTo (σ E : Type) := E → E → σ → (Bool × Option String) × σ

/-- The method `(s *Selection) EqualsElement(comparable)`. In the messages `%s` renders a
`*Selection` by its `String()`; `comparable` is rendered only after the type assertion has
succeeded. -/
def Selection.EqualsElement {A : Type} (dom : E → Retriever σ E) (IsEqualTo : EqualTo σ E)
    (s : Selection σ E) (comparable : Comparable σ E A) (st : σ) : Outcome Bool × σ :=
  match s.getSelectedElement dom st with
  | (.panic, st1) => (.panic, st1)
  | (.ret _ (some err), st1) =>
    (.ret false (some ("failed to select '" ++ s.String ++ "': " ++ err)), st1)
  | (.ret element none, st1) =>
    match comparable with
    | .other _ => (.ret false (some "provided object is not a selection"), st1)
    | .selection selection =>
      match selection.getSelectedElement dom st1 with
      | (.panic, st2) => (.panic, st2)
      | (.ret _ (some err), st2) =>
        (.ret false (some ("failed to select '" ++ selection.String ++ "': " ++ err)), st2)
      | (.ret otherElement none, st2) =>
        match element, otherElement with
        | some element, some otherElement =>
          match IsEqualTo element otherElement st2 with
          | ((_, some err), st3) =>
            (.ret false (some ("failed to compare '" ++ s.String ++ "' to '"
              ++ selection.String ++ "': " ++ err)), st3)
          | ((equal, none), st3) => (.ret equal none, st3)
        | _, _ => (.panic, st2)

/-! ## properties.go -/

/-- The type `stateMethod`: a method of an element handle returning `(bool, error)`, as a
function of the state of the outside world. -/
abbrev StateMethod (σ E : Type) := E → σ → (Bool × Option String) × σ

/-- The loop of `hasState` over the selected elements. -/
def hasStateLoop (method : StateMethod σ E) (name rendering : String) :
    List E → σ → Outcome Bool × σ
  | [], st => (.ret true none, st)
  | element :: more, st =>
    match method element st with
    | ((_, some err), st1) =>
      (.ret false (some ("failed to determine whether some '" ++ rendering ++ "' is "
        ++ name ++ ": " ++ err)), st1)
    | ((pass, none), st1) =>
      if pass = false then (.ret false none, st1)
      else hasStateLoop method name rendering more st1

/-- The method `(s *Selection) hasState(method, name)`. -/
def Selection.hasState (dom : E → Retriever σ E) (method : StateMethod σ E) (name : GoString)
    (s : Selection σ E) (st : σ) : Outcome Bool × σ :=
  match s.getSelectedElements dom st with
  | (.panic, st1) => (.panic, st1)
  | (.ret _ (some err), st1) =>
    (.ret false (some ("failed to select '" ++ s.String ++ "': " ++ err)), st1)
  | (.ret elements none, st1) => hasStateLoop method name s.String elements st1

/-- The method `(s *Selection) Selected()`; `IsSelected` is the element method of that name. -/
def Selection.Selected (dom : E → Retriever σ E) (IsSelected : StateMethod σ E)
    (s : Selection σ E) (st : σ) : Outcome Bool × σ :=
  s.hasState dom IsSelected "selected" st

/-- The method `(s *Selection) Visible()`; `IsDisplayed` is the element method of that
name. -/
def Selection.Visible (dom : E → Retriever σ E) (IsDisplayed : StateMethod σ E)
    (s : Selection σ E) (st : σ) : Outcome Bool × σ :=
  s.hasState dom IsDisplayed "visible" st

/-- The method `(s *Selection) Enabled()`; `IsEnabled` is the element method of that name. -/
def Selection.Enabled (dom : E → Retriever σ E) (IsEnabled : StateMethod σ E)
    (s : Selection σ E) (st : σ) : Outcome Bool × σ :=
  s.hasState dom IsEnabled "enabled" st

/-! ## The slices of criteria in memory

The builders above work on the criteria as values. Here the field `selectors` is the Go
slice it is: a header (backing array, length) over arrays that live in a memory, with Go's
`append`, which writes into the backing array when the capacity allows it. -/

/-- The memory holding the backing arrays of the slices of criteria: the array number `k` is
the entry `k`, a list of as many cells as the array has capacity. -/
abbrev Memory := List (List Selector)

/-- A slice `[]types.Selector`: its backing array (`none` for the nil slice) and its length.
Every slice of this package starts at the first cell of its array, so its capacity is the
length of the array. -/
structure Slice where
  array : Option Nat
  len : Nat
deriving DecidableEq, Repr

/-- The value `[]types.Selector(nil)`. -/
def Slice.nil : Slice := ⟨none, 0⟩

/-- The cells of the backing array of a slice. -/
def Slice.cells (mem : Memory) (sl : Slice) : List Selector :=
  match sl.array with
  | none => []
  | some k => mem[k]?.getD []

/-- The builtin `cap(sl)`. -/
def Slice.cap (mem : Memory) (sl : Slice) : Nat :=
  (sl.cells mem).length

/-- The elements `sl[0], ..., sl[len(sl) - 1]` as the memory has them. -/
def Slice.elems (mem : Memory) (sl : Slice) : List Selector :=
  (sl.cells mem).take sl.len

/-- A slice of the memory: its array exists and is at least as long as the slice. -/
def Slice.Valid (mem : Memory) (sl : Slice) : Prop :=
  match sl.array with
  | none => sl.len = 0
  | some k => k < mem.length ∧ sl.len ≤ (mem[k]?.getD []).length

/-- The zero value of `types.Selector`, which fills the spare cells of a new array. -/
def Selector.zero : Selector := ⟨"", "", 0, false⟩

/-- The builtin `append(sl, xs...)`. If the capacity suffices the elements are written into
the backing array of `sl`, after its last element; otherwise a new array is allocated, of a
capacity that is at least the one needed (`grow` is the growth policy of the runtime), and
receives the elements of `sl` and then `xs`. -/
def goAppend (grow : Nat → Nat → Nat) (mem : Memory) (sl : Slice) (xs : List Selector) :
    Slice × Memory :=
  if sl.len + xs.length ≤ sl.cap mem then
    match sl.array with
    | none => (sl, mem)
    | some k =>
      (⟨some k, sl.len + xs.length⟩,
        mem.set k ((sl.cells mem).take sl.len ++ xs ++ (sl.cells mem).drop (sl.len + xs.length)))
  else
    let need := sl.len + xs.length
    let newCap := max need (grow (sl.cap mem) need)
    (⟨some mem.length, need⟩,
      mem ++ [sl.elems mem ++ xs ++ List.replicate (newCap - need) Selector.zero])

namespace InMemory

/-- The struct `Selection` with its field `selectors` as a slice of the memory. -/
structure Selection (σ E : Type) where
  Client : Retriever σ E
  selectors : Slice
  acceptAll : Bool

/-- The chain that a `Selection` of the memory stands for. -/
def Selection.view (mem : Memory) (s : Selection σ E) : Agouti.Selection σ E :=
  ⟨s.Client, s.selectors.elems mem, s.acceptAll⟩

/-- The function `newSelectors(selectors, newSelectors...)`:
`selectorsCopy := append([]types.Selector(nil), selectors...)` and then
`append(selectorsCopy, newSelectors...)`. -/
def newSelectors (grow : Nat → Nat → Nat) (mem : Memory) (selectors : Slice)
    (more : List Selector) : Slice × Memory :=
  let copied := goAppend grow mem Slice.nil (selectors.elems mem)
  goAppend grow copied.2 copied.1 more

/-- The method `(s *Selection) At(index)`; `s.selectors[:last]` is the slice of the same array
with the length `last`. -/
def Selection.At (grow : Nat → Nat → Nat) (mem : Memory) (s : Selection σ E) (index : Int) :
    Selection σ E × Memory :=
  if s.selectors.len = 0 then
    let r := newSelectors grow mem s.selectors []
    (⟨s.Client, r.1, s.acceptAll⟩, r.2)
  else
    let last := s.selectors.len - 1
    let newSelector : Selector :=
      { (s.selectors.elems mem)[last]?.getD Selector.zero with Index := index, Indexed := true }
    let r := newSelectors grow mem ⟨s.selectors.array, last⟩ [newSelector]
    (⟨s.Client, r.1, s.acceptAll⟩, r.2)

/-- The method `(s *Selection) subSelection(using, value)`. -/
def Selection.subSelection (grow : Nat → Nat → Nat) (mem : Memory) (s : Selection σ E)
    (using_ value : String) : Selection σ E × Memory :=
  let newSelector : Selector := { Using := using_, Value := value, Index := 0, Indexed := false }
  let r := newSelectors grow mem s.selectors [newSelector]
  (⟨s.Client, r.1, s.acceptAll⟩, r.2)

/-- The method `(s *Selection) mergedSelection(value)`. -/
def Selection.mergedSelection (grow : Nat → Nat → Nat) (mem : Memory) (s : Selection σ E)
    (value : String) : Selection σ E × Memory :=
  let last := s.selectors.len - 1
  let newSelectorValue := ((s.selectors.elems mem)[last]?.getD Selector.zero).Value ++ " " ++ value
  let newSelector : Selector :=
    { Using := "css selector", Value := newSelectorValue, Index := 0, Indexed := false }
  let r := newSelectors grow mem ⟨s.selectors.array, last⟩ [newSelector]
  (⟨s.Client, r.1, s.acceptAll⟩, r.2)

/-- The method `(s *Selection) Find(selector)`. -/
def Selection.Find (grow : Nat → Nat → Nat) (mem : Memory) (s : Selection σ E)
    (selector : String) : Selection σ E × Memory :=
  let last := s.selectors.len - 1
  if s.selectors.len ≠ 0
      ∧ ((s.selectors.elems mem)[last]?.getD Selector.zero).Using = "css selector"
      ∧ ((s.selectors.elems mem)[last]?.getD Selector.zero).Indexed = false then
    s.mergedSelection grow mem selector
  else
    s.subSelection grow mem "css selector" selector

/-- The method `(s *Selection) FindXPath(selector)`. -/
def Selection.FindXPath (grow : Nat → Nat → Nat) (mem : Memory) (s : Selection σ E)
    (selector : String) : Selection σ E × Memory :=
  s.subSelection grow mem "xpath" selector

/-- The method `(s *Selection) FindLink(text)`. -/
def Selection.FindLink (grow : Nat → Nat → Nat) (mem : Memory) (s : Selection σ E)
    (text : String) : Selection σ E × Memory :=
  s.subSelection grow mem "link text" text

/-- The method `(s *Selection) All()`. -/
def Selection.All (grow : Nat → Nat → Nat) (mem : Memory) (s : Selection σ E) :
    Selection σ E × Memory :=
  let r := newSelectors grow mem s.selectors []
  (⟨s.Client, r.1, true⟩, r.2)

/-- The zero value `&Selection{Client: client}`: its `selectors` is the nil slice. -/
def Selection.new (client : Retriever σ E) : Selection σ E :=
  ⟨client, Slice.nil, false⟩

end InMemory

/-- A growth policy for the examples: a new array has twice the capacity of the old one. -/
def doubling : Nat → Nat → Nat :=
  fun oldCap _ => 2 * oldCap

/-- Whether a slice is a slice of the memory can be computed. -/
instance Slice.decidableValid (mem : Memory) (sl : Slice) : Decidable (sl.Valid mem) :=
  match h : sl.array with
  | none => decidable_of_iff (sl.len = 0) (by simp [Slice.Valid, h])
  | some k =>
    decidable_of_iff (k < mem.length ∧ sl.len ≤ (mem[k]?.getD []).length)
      (by simp [Slice.Valid, h])

/-- One call of a chain builder, with its arguments. -/
inductive Builder where
  | Find (selector : String)
  | FindXPath (selector : String)
  | FindLink (text : String)
  | At (index : Int)
  | All
deriving DecidableEq, Repr

/-- The builder call `op` on a chain. -/
def Selection.apply (s : Selection σ E) : Builder → Selection σ E
  | .Find selector => s.Find selector
  | .FindXPath selector => s.FindXPath selector
  | .FindLink text => s.FindLink text
  | .At index => s.At index
  | .All => s.All

/-- The builder call `op` on a chain of the memory. -/
def InMemory.Selection.apply (grow : Nat → Nat → Nat) (mem : Memory)
    (s : InMemory.Selection σ E) : Builder → InMemory.Selection σ E × Memory
  | .Find selector => s.Find grow mem selector
  | .FindXPath selector => s.FindXPath grow mem selector
  | .FindLink text => s.FindLink grow mem text
  | .At index => s.At grow mem index
  | .All => s.All grow mem

/-! ## The resolution of the spec (4.2), to compare the code with -/

/-- Spec 4.2 step 4, "apply indexing" to a raw result list `L`: an unindexed criterion passes
`L` through; an indexed one yields `[L[i]]`, and nothing when the index is out of range. -/
def Spec.applyIndexing (L : List E) (c : Selector) : Option (List E) :=
  if c.Indexed then
    if 0 ≤ c.Index ∧ c.Index < (L.length : Int) then
      (L.get? c.Index.toNat).map (fun x => [x])
    else none
  else some L

/-- The (indexed) matches of a criterion against one provider, with the state after the call;
nothing when the provider call fails or the index is out of range. -/
def Spec.matchesOf (r : Retriever σ E) (c : Selector) (st : σ) : Option (List E × σ) :=
  match r c st with
  | ((_, some _), _) => none
  | ((L, none), st1) => (Spec.applyIndexing L c).map (fun l => (l, st1))

/-- Spec 4.2 step 3 for one criterion: the concatenation, in the order of `current`, of each
element's (indexed) matches, the elements being queried in that order. -/
def Spec.fanOut (dom : E → Retriever σ E) (c : Selector) : List E → σ → Option (List E × σ)
  | [], st => some ([], st)
  | e :: rest, st =>
    match Spec.matchesOf (dom e) c st with
    | none => none
    | some (m, st1) =>
      match Spec.fanOut dom c rest st1 with
      | none => none
      | some (ms, st2) => some (m ++ ms, st2)

/-- One level of the resolution: the current list is replaced by its fan-out. -/
def Spec.level (dom : E → Retriever σ E) (cur : Option (List E × σ)) (c : Selector) :
    Option (List E × σ) :=
  match cur with
  | none => none
  | some (l, st) => Spec.fanOut dom c l st

/-- Spec 4.2: start from the (indexed) matches of the first criterion against the root, then
replace the current list level by level, the later criteria in order. An empty chain resolves
to nothing. -/
def Spec.resolve (dom : E → Retriever σ E) (root : Retriever σ E) :
    List Selector → σ → Option (List E × σ)
  | [], _ => none
  | c0 :: cs, st => cs.foldl (Spec.level dom) (Spec.matchesOf root c0 st)

/-- The reading of an index in spec 3: the element at position `Index` of the level's whole
candidate list, which is the concatenation in parent order of every parent's (unindexed)
matches for the criterion. -/
def Spec.wholeLevelPick (dom : E → Retriever σ E) (c : Selector) (parents : List E) (st : σ) :
    Option (List E × σ) :=
  match Spec.fanOut dom { c with Indexed := false } parents st with
  | none => none
  | some (candidates, st1) => (Spec.applyIndexing candidates c).map (fun l => (l, st1))

/-- The elements of a list, queried in order by a state method, all answer `true` without
error; the result is the state after the last call. -/
def Spec.allPass (method : StateMethod σ E) : List E → σ → Option σ
  | [], st => some st
  | e :: rest, st =>
    match method e st with
    | ((true, none), st1) => Spec.allPass method rest st1
    | _ => none

/-! ## The rendering of the spec (4.4), to compare the code with -/

/-- Spec 4.4: renderings joined by ` | ` in chain order. -/
def Spec.joinTags : List String → String
  | [] => ""
  | [t] => t
  | t :: u :: more => t ++ " | " ++ Spec.joinTags (u :: more)

/-- Spec 4.4: the criteria render joined by ` | ` in chain order, and ` - All` is appended to
the whole rendering when `acceptMultiple` is set. -/
def Spec.render (criteria : List Selector) (acceptMultiple : Bool) : String :=
  Spec.joinTags (criteria.map Selector.String) ++ (if acceptMultiple then " - All" else "")

/-! ## Providers that record their calls -/

/-- One provider call: the handle queried (`none` for the root client) and the criterion. -/
abbrev Call (E : Type) := Option E × Selector

/-- A root client that answers by `root` and appends each call to the state. -/
def recordingClient (root : Selector → List E × Option String) : Retriever (List (Call E)) E :=
  fun c log => (root c, log ++ [(none, c)])

/-- Element handles that answer by `child` and append each call to the state. -/
def recordingDom (child : E → Selector → List E × Option String) :
    E → Retriever (List (Call E)) E :=
  fun e c log => (child e c, log ++ [(some e, c)])

/-- The document of `elements_test.go`: the root has the two parents `1` and `2`, and the
element `k` has the two children `10 * k + 1` and `10 * k + 2`, whatever the criterion. -/
def testRoot : Selector → List Nat × Option String :=
  fun _ => ([1, 2], none)

/-- The children of an element of the test document. -/
def testChild : Nat → Selector → List Nat × Option String :=
  fun k _ => ([10 * k + 1, 10 * k + 2], none)

/-- The chain `Find("#selector")` from which the tests start, on the test document. -/
def testSelection : Selection (List (Call Nat)) Nat :=
  (Selection.new (recordingClient testRoot)).Find "#selector"

/-- A root client every call of which fails with `some error`, as in the tests. -/
def failingRoot : Selector → List Nat × Option String :=
  fun _ => ([], some "some error")

/-- The test document with a failing first parent: querying the element `1` fails with
`some error`. -/
def failingChild : Nat → Selector → List Nat × Option String :=
  fun k c => if k = 1 then ([], some "some error") else testChild k c

/-- An `IsEqualTo` for the test document: two handles are equal when they are the same
number; the comparison never fails and leaves the state alone. -/
def testEqualTo : EqualTo (List (Call Nat)) Nat :=
  fun a b log => ((decide (a = b), none), log)

/-- An `IsEqualTo` every call of which fails with `some error`. -/
def failingEqualTo : EqualTo (List (Call Nat)) Nat :=
  fun _ _ log => ((false, some "some error"), log)

/-- A state method for the test document: the elements with an even number are in the
state; the query never fails and leaves the state alone. -/
def testState : StateMethod (List (Call Nat)) Nat :=
  fun e log => ((decide (e % 2 = 0), none), log)

/-- The chain `FindXPath("//one").FindXPath("//two").FindXPath("//parent")` of
`selection_test.go`, built in an empty memory, and the memory after it. -/
def testParent : InMemory.Selection (List (Call Nat)) Nat × Memory :=
  let one := (InMemory.Selection.new (recordingClient testRoot)).FindXPath doubling [] "//one"
  let two := one.1.FindXPath doubling one.2 "//two"
  two.1.FindXPath doubling two.2 "//parent"

/-- A root client that finds nothing: every call returns the empty list and no error. -/
def emptyRoot : Selector → List Nat × Option String :=
  fun _ => ([], none)

/-- Element handles every call of which fails with `some error`. -/
def brokenChild : Nat → Selector → List Nat × Option String :=
  fun _ _ => ([], some "some error")

end Agouti

/-! # Theorems -/

namespace Agouti

variable {σ E : Type}

/-! ## Resolution: the loops against the spec -/

theorem getElements_ok_iff (r : Retriever σ E) (c : Selector) (st st1 : σ) (L : List E) :
    getElements r c st = (.ret L none, st1) ↔ Spec.matchesOf r c st = some (L, st1) := by
  unfold getElements Spec.matchesOf Spec.applyIndexing
  rcases hr : r c st with ⟨⟨l, err⟩, s1⟩
  cases err with
  | some e => simp
  | none =>
    by_cases hi : c.Indexed = true
    · simp only [hi, if_true]
      by_cases hge : c.Index ≥ (l.length : Int)
      · have : ¬ (0 ≤ c.Index ∧ c.Index < (l.length : Int)) := by omega
        simp [hge, this]
      · rcases hx : c.Index with i | i
        · have hlt : i < l.length := by
            have : c.Index < (l.length : Int) := by omega
            rw [hx] at this
            simp only [Int.ofNat_eq_coe] at this
            omega
          have hget : l.get? i = some (l.get ⟨i, hlt⟩) := List.get?_eq_get hlt
          have h1 : ¬ ((Int.ofNat i) ≥ (l.length : Int)) := by rw [← hx]; exact hge
          have h2 : (0 ≤ Int.ofNat i ∧ Int.ofNat i < (l.length : Int)) := by
            constructor
            · exact Int.ofNat_nonneg i
            · rw [← hx]; omega
          simp only [h1, h2, if_false, if_true, hget, Int.toNat_ofNat, Option.map_some']
          simp [List.getElem?_eq_getElem hlt]
        · have h1 : ¬ ((Int.negSucc i) ≥ (l.length : Int)) := by rw [← hx]; exact hge
          have h2 : ¬ (0 ≤ Int.negSucc i ∧ Int.negSucc i < (l.length : Int)) := by
            intro h; exact absurd h.1 (by simp [Int.negSucc_lt_zero])
          simp [h1, h2]
    · simp [hi]

theorem innerLoop_ok_iff (dom : E → Retriever σ E) (c : Selector) (l acc R : List E)
    (st st2 : σ) :
    innerLoop dom c l acc st = (.ret R none, st2) ↔
      ∃ m, Spec.fanOut dom c l st = some (m, st2) ∧ R = acc ++ m := by
  induction l generalizing acc st with
  | nil =>
    simp only [innerLoop, Spec.fanOut]
    constructor
    · intro h
      injection h with h1 h2
      injection h1 with h1 _
      exact ⟨[], by rw [h2], by simp [h1]⟩
    · rintro ⟨m, hm, hR⟩
      injection hm with hm
      injection hm with hm1 hm2
      subst hm1; subst hm2
      simp [hR]
  | cons e rest ih =>
    simp only [innerLoop, Spec.fanOut]
    rcases hg : getElements (dom e) c st with ⟨o, s1⟩
    cases o with
    | panic =>
      have hn : Spec.matchesOf (dom e) c st = none := by
        cases hm : Spec.matchesOf (dom e) c st with
        | none => rfl
        | some p =>
          rcases p with ⟨m, s⟩
          rw [(getElements_ok_iff _ _ _ _ _).mpr hm] at hg
          cases hg
      simp [hn]
    | ret v err =>
      cases err with
      | some er =>
        have hn : Spec.matchesOf (dom e) c st = none := by
          cases hm : Spec.matchesOf (dom e) c st with
          | none => rfl
          | some p =>
            rcases p with ⟨m, s⟩
            rw [(getElements_ok_iff _ _ _ _ _).mpr hm] at hg
            cases hg
        simp [hn]
      | none =>
        have hs : Spec.matchesOf (dom e) c st = some (v, s1) :=
          (getElements_ok_iff _ _ _ _ _).mp hg
        simp only [hs]
        rw [ih]
        constructor
        · rintro ⟨m, hm, hR⟩
          refine ⟨v ++ m, ?_, by rw [hR, List.append_assoc]⟩
          simp [hm]
        · rintro ⟨m, hm, hR⟩
          cases hf : Spec.fanOut dom c rest s1 with
          | none => simp [hf] at hm
          | some p =>
            rcases p with ⟨ms, s2⟩
            simp only [hf] at hm
            injection hm with hm
            injection hm with hm1 hm2
            subst hm1; subst hm2
            exact ⟨ms, rfl, by rw [hR, List.append_assoc]⟩

theorem level_foldl_none (dom : E → Retriever σ E) (cs : List Selector) :
    cs.foldl (Spec.level dom) none = none := by
  induction cs with
  | nil => rfl
  | cons c cs ih => simpa [List.foldl, Spec.level] using ih

theorem outerLoop_ok_iff (dom : E → Retriever σ E) (cs : List Selector) (l R : List E)
    (st st2 : σ) :
    outerLoop dom cs l st = (.ret R none, st2) ↔
      cs.foldl (Spec.level dom) (some (l, st)) = some (R, st2) := by
  induction cs generalizing l st with
  | nil => simp [outerLoop]
  | cons c cs ih =>
    simp only [outerLoop, List.foldl, Spec.level]
    rcases hi : innerLoop dom c l [] st with ⟨o, s1⟩
    cases o with
    | panic =>
      have hn : Spec.fanOut dom c l st = none := by
        cases hf : Spec.fanOut dom c l st with
        | none => rfl
        | some p =>
          rcases p with ⟨m, s⟩
          rw [(innerLoop_ok_iff dom c l [] m st s).mpr ⟨m, hf, by simp⟩] at hi
          cases hi
      simp [hn, level_foldl_none]
    | ret v err =>
      cases err with
      | some er =>
        have hn : Spec.fanOut dom c l st = none := by
          cases hf : Spec.fanOut dom c l st with
          | none => rfl
          | some p =>
            rcases p with ⟨m, s⟩
            rw [(innerLoop_ok_iff dom c l [] m st s).mpr ⟨m, hf, by simp⟩] at hi
            cases hi
        simp [hn, level_foldl_none]
      | none =>
        obtain ⟨m, hm, hv⟩ := (innerLoop_ok_iff dom c l [] v st s1).mp hi
        simp only [List.nil_append] at hv
        subst hv
        simp only [hm]
        exact ih v s1

theorem getElements_resolve_iff (dom : E → Retriever σ E) (s : Selection σ E) (st st2 : σ)
    (R : List E) :
    s.getElements dom st = (.ret R none, st2) ↔
      Spec.resolve dom s.Client s.selectors st = some (R, st2) := by
  unfold Selection.getElements
  cases hsel : s.selectors with
  | nil => simp [Spec.resolve]
  | cons c0 cs =>
    simp only [Spec.resolve]
    rcases hg : getElements s.Client c0 st with ⟨o, s1⟩
    have hnone : (∀ v, o ≠ .ret v none) → Spec.matchesOf s.Client c0 st = none := by
      intro hne
      cases hm : Spec.matchesOf s.Client c0 st with
      | none => rfl
      | some p =>
        rcases p with ⟨m, t⟩
        rw [(getElements_ok_iff _ _ _ _ _).mpr hm] at hg
        injection hg with h1 _
        exact absurd h1.symm (hne m)
    cases o with
    | panic =>
      rw [hnone (by intro v h; cases h)]
      simp [level_foldl_none]
    | ret v err =>
      cases err with
      | some er =>
        rw [hnone (by intro v h; cases h)]
        simp [level_foldl_none]
      | none =>
        rw [(getElements_ok_iff _ _ _ _ _).mp hg]
        exact outerLoop_ok_iff dom cs v R s1 st2

/-! ## C1 -/

/-- C1: resolution is a parent-major fan-out. Whenever the resolution of the spec yields a
list (so the chain is not empty, no provider call fails and no index is out of range),
`Selection.getElements` returns that list without error, having made the same calls, and
`Count` returns its length. In particular, when the root returns `[P1, P2]` for an unindexed
first criterion and each `Pk` then returns `[Ck1, Ck2]` for an unindexed second criterion,
the result is `[C11, C12, C21, C22]` and `Count` returns 4. -/
theorem C1_resolution_is_parent_major_fan_out :
    (∀ (dom : E → Retriever σ E) (s : Selection σ E) (st st2 : σ) (L : List E),
      Spec.resolve dom s.Client s.selectors st = some (L, st2) →
        s.getElements dom st = (.ret L none, st2) ∧
        s.Count dom st = (.ret L.length none, st2)) ∧
    (∀ (dom : E → Retriever σ E) (client : Retriever σ E) (all : Bool) (c0 c1 : Selector)
        (P1 P2 C11 C12 C21 C22 : E) (st st1 st2 st3 : σ),
      c0.Indexed = false → c1.Indexed = false →
      client c0 st = (([P1, P2], none), st1) →
      dom P1 c1 st1 = (([C11, C12], none), st2) →
      dom P2 c1 st2 = (([C21, C22], none), st3) →
        Selection.getElements dom ⟨client, [c0, c1], all⟩ st
          = (.ret [C11, C12, C21, C22] none, st3) ∧
        Selection.Count dom ⟨client, [c0, c1], all⟩ st = (.ret 4 none, st3)) := by
  have count_of : ∀ (dom : E → Retriever σ E) (s : Selection σ E) (st st2 : σ) (L : List E),
      s.getElements dom st = (.ret L none, st2) →
        s.Count dom st = (.ret L.length none, st2) := by
    intro dom s st st2 L h
    simp [Selection.Count, h]
  refine ⟨?_, ?_⟩
  · intro dom s st st2 L h
    have hg := (getElements_resolve_iff dom s st st2 L).mpr h
    exact ⟨hg, count_of dom s st st2 L hg⟩
  · intro dom client all c0 c1 P1 P2 C11 C12 C21 C22 st st1 st2 st3 h0 h1 hr hp1 hp2
    have hg : Selection.getElements dom ⟨client, [c0, c1], all⟩ st
        = (.ret [C11, C12, C21, C22] none, st3) := by
      simp [Selection.getElements, getElements, outerLoop, innerLoop, h0, h1, hr, hp1, hp2]
    exact ⟨hg, count_of dom _ st st3 _ hg⟩

/-- C1 on the test document: the chain `Find("#selector").FindXPath("children")` resolves to
the four children in parent-major order, after three provider calls. -/
theorem C1_resolution_is_parent_major_fan_out_witness :
    Spec.resolve (recordingDom testChild) (testSelection.FindXPath "children").Client
        (testSelection.FindXPath "children").selectors []
      = some ([11, 12, 21, 22],
          [(none, ⟨"css selector", "#selector", 0, false⟩),
           (some 1, ⟨"xpath", "children", 0, false⟩),
           (some 2, ⟨"xpath", "children", 0, false⟩)]) ∧
    (testSelection.FindXPath "children").getElements (recordingDom testChild) []
      = (.ret [11, 12, 21, 22] none,
          [(none, ⟨"css selector", "#selector", 0, false⟩),
           (some 1, ⟨"xpath", "children", 0, false⟩),
           (some 2, ⟨"xpath", "children", 0, false⟩)]) ∧
    (testSelection.FindXPath "children").Count (recordingDom testChild) []
      = (.ret 4 none,
          [(none, ⟨"css selector", "#selector", 0, false⟩),
           (some 1, ⟨"xpath", "children", 0, false⟩),
           (some 2, ⟨"xpath", "children", 0, false⟩)]) :=
  ⟨by decide,
   C1_resolution_is_parent_major_fan_out.1 (recordingDom testChild)
     (testSelection.FindXPath "children") [] _ [11, 12, 21, 22] (by decide)⟩

/-! ## C2 -/

/-- C2: applying indexing at one level. When the provider call returns the list `L` without
error, `getElements(provider, criterion)` returns `L` unchanged for an unindexed criterion;
for a criterion indexed with `i >= 0` it fails if and only if `i >= len(L)`, with the message
`element index out of range (>N)` where `N = len(L) - 1`, and otherwise returns the
one-element list `[L[i]]`. With index 2 and a 2-element result the message is
`element index out of range (>1)`. -/
theorem C2_apply_indexing (retriever : Retriever σ E) (selector : Selector) (st st1 : σ)
    (L : List E) (h : retriever selector st = ((L, none), st1)) :
    (selector.Indexed = false → getElements retriever selector st = (.ret L none, st1)) ∧
    (selector.Indexed = true → 0 ≤ selector.Index →
      ((∃ v e, (getElements retriever selector st).1 = .ret v (some e))
          ↔ selector.Index ≥ (L.length : Int)) ∧
      (selector.Index ≥ (L.length : Int) →
        getElements retriever selector st
          = (.ret [] (some ("element index out of range (>"
              ++ toString ((L.length : Int) - 1) ++ ")")), st1)) ∧
      (selector.Index < (L.length : Int) →
        ∃ x, L.get? selector.Index.toNat = some x ∧
          getElements retriever selector st = (.ret [x] none, st1))) ∧
    (selector.Indexed = true → selector.Index = 2 → L.length = 2 →
      getElements retriever selector st
        = (.ret [] (some "element index out of range (>1)"), st1)) := by
  have hge : selector.Indexed = true → selector.Index ≥ (L.length : Int) →
      getElements retriever selector st
        = (.ret [] (some ("element index out of range (>"
            ++ toString ((L.length : Int) - 1) ++ ")")), st1) := by
    intro hi hg
    simp [getElements, h, hi, hg]
  have hlt : selector.Indexed = true → 0 ≤ selector.Index →
      selector.Index < (L.length : Int) →
      ∃ x, L.get? selector.Index.toNat = some x ∧
        getElements retriever selector st = (.ret [x] none, st1) := by
    intro hi h0 hl
    have hm : Spec.matchesOf retriever selector st
        = (Spec.applyIndexing L selector).map (fun l => (l, st1)) := by
      simp [Spec.matchesOf, h]
    have hb : selector.Index.toNat < L.length := by omega
    refine ⟨L.get ⟨selector.Index.toNat, hb⟩, List.get?_eq_get hb, ?_⟩
    rw [getElements_ok_iff, hm]
    simp [Spec.applyIndexing, hi, h0, hl, List.getElem?_eq_getElem hb]
  refine ⟨?_, ?_, ?_⟩
  · intro hi
    simp [getElements, h, hi]
  · intro hi h0
    refine ⟨⟨?_, ?_⟩, hge hi, hlt hi h0⟩
    · rintro ⟨v, e, hf⟩
      by_contra hn
      obtain ⟨x, _, hx⟩ := hlt hi h0 (by omega)
      rw [hx] at hf
      cases hf
    · intro hg
      exact ⟨[], _, by rw [hge hi hg]⟩
  · intro hi h2 hl
    have := hge hi (by omega)
    rw [this, hl]
    rfl

/-- C2 on the test document: the root returns two elements, and index 2 is refused with
`element index out of range (>1)`. -/
theorem C2_apply_indexing_witness :
    recordingClient testRoot ⟨"css selector", "#selector", 2, true⟩ []
      = (([1, 2], none), [(none, ⟨"css selector", "#selector", 2, true⟩)]) ∧
    getElements (recordingClient testRoot) ⟨"css selector", "#selector", 2, true⟩ []
      = (.ret [] (some "element index out of range (>1)"),
          [(none, ⟨"css selector", "#selector", 2, true⟩)]) :=
  ⟨by decide,
   (C2_apply_indexing (recordingClient testRoot) ⟨"css selector", "#selector", 2, true⟩ []
      [(none, ⟨"css selector", "#selector", 2, true⟩)] [1, 2] (by decide)).2.2 rfl rfl rfl⟩

/-! ## C3 -/

/-- C3: `getSelectedElement` (SelectOne) returns the element `e` if and only if the chain is
not in All-mode and resolution succeeds with exactly `[e]`. In All-mode it fails with
`method does not support All()` whatever the chain and the provider are, and makes no provider
call (the state is untouched; a recording provider records nothing). Not in All-mode it fails
with `no elements found` on zero resolved elements, and on `n > 1` resolved elements with a
message naming `n`. -/
theorem C3_select_one (dom : E → Retriever σ E) (s : Selection σ E) (st : σ) :
    (∀ (e : E) (st2 : σ),
      s.getSelectedElement dom st = (.ret (some e) none, st2) ↔
        (s.acceptAll = false ∧ s.getElements dom st = (.ret [e] none, st2))) ∧
    (s.acceptAll = true →
      s.getSelectedElement dom st = (.ret none (some "method does not support All()"), st)) ∧
    (∀ (root : Selector → List E × Option String) (child : E → Selector → List E × Option String)
        (cs : List Selector) (log : List (Call E)),
      (Selection.getSelectedElement (recordingDom child)
        ⟨recordingClient root, cs, true⟩ log).2 = log) ∧
    (∀ (st2 : σ), s.acceptAll = false → s.getElements dom st = (.ret [] none, st2) →
      s.getSelectedElement dom st = (.ret none (some "no elements found"), st2)) ∧
    (∀ (L : List E) (st2 : σ), s.acceptAll = false →
      s.getElements dom st = (.ret L none, st2) → L.length > 1 →
      s.getSelectedElement dom st
        = (.ret none (some ("method does not support multiple elements ("
            ++ toString L.length ++ ") ")), st2)) := by
  refine ⟨?_, ?_, ?_, ?_, ?_⟩
  · intro e st2
    unfold Selection.getSelectedElement
    cases hall : s.acceptAll with
    | true => simp
    | false =>
      simp only [Bool.false_eq_true, if_false, true_and]
      rcases hg : s.getElements dom st with ⟨o, s1⟩
      cases o with
      | panic => simp
      | ret v err =>
        cases err with
        | some er => simp
        | none =>
          match v with
          | [] => simp
          | [a] => simp
          | a :: b :: r => simp
  · intro hall
    simp [Selection.getSelectedElement, hall]
  · intro root child cs log
    simp [Selection.getSelectedElement]
  · intro st2 hall hg
    simp [Selection.getSelectedElement, hall, hg]
  · intro L st2 hall hg hL
    have h0 : ¬ (L.length = 0) := by omega
    simp [Selection.getSelectedElement, hall, hg, h0, hL]

/-- C3 on the test document: `Find("#selector").At(1)` selects the second parent, and the
same chain in All-mode is refused without any provider call. -/
theorem C3_select_one_witness :
    (testSelection.At 1).acceptAll = false ∧
    (testSelection.At 1).getElements (recordingDom testChild) []
      = (.ret [2] none, [(none, ⟨"css selector", "#selector", 1, true⟩)]) ∧
    (testSelection.At 1).getSelectedElement (recordingDom testChild) []
      = (.ret (some 2) none, [(none, ⟨"css selector", "#selector", 1, true⟩)]) ∧
    (testSelection.At 1).All.getSelectedElement (recordingDom testChild) []
      = (.ret none (some "method does not support All()"), []) :=
  ⟨by decide, by decide,
   ((C3_select_one (recordingDom testChild) (testSelection.At 1) []).1 2 _).mpr
     ⟨by decide, by decide⟩,
   (C3_select_one (recordingDom testChild) (testSelection.At 1).All []).2.1 (by decide)⟩

/-! ## C4 -/

theorem getElements_All (dom : E → Retriever σ E) (s : Selection σ E) (st : σ) :
    s.All.getElements dom st = s.getElements dom st := by
  simp [Selection.getElements, Selection.All, newSelectors]

/-- C4: `getSelectedElements` (SelectMultiple). When resolution succeeds with the list `L`,
it fails with `no elements found` when `L` is empty; fails with a message naming `len(L)`
when `len(L) > 1` and the chain is not in All-mode; and otherwise returns exactly `L`. In
particular a non-All chain resolving to 2 elements fails naming 2, and the same chain after
`All()` returns both elements in order. -/
theorem C4_select_multiple (dom : E → Retriever σ E) (s : Selection σ E) (st st2 : σ)
    (L : List E) (h : s.getElements dom st = (.ret L none, st2)) :
    (L = [] → s.getSelectedElements dom st = (.ret [] (some "no elements found"), st2)) ∧
    (L.length > 1 → s.acceptAll = false →
      s.getSelectedElements dom st
        = (.ret [] (some ("method requires All() for multiple elements ("
            ++ toString L.length ++ ") ")), st2)) ∧
    (L ≠ [] → (L.length ≤ 1 ∨ s.acceptAll = true) →
      s.getSelectedElements dom st = (.ret L none, st2)) ∧
    (L.length = 2 → s.acceptAll = false →
      s.getSelectedElements dom st
        = (.ret [] (some "method requires All() for multiple elements (2) "), st2) ∧
      s.All.getSelectedElements dom st = (.ret L none, st2)) := by
  have hmany : L.length > 1 → s.acceptAll = false →
      s.getSelectedElements dom st
        = (.ret [] (some ("method requires All() for multiple elements ("
            ++ toString L.length ++ ") ")), st2) := by
    intro hL hall
    have h0 : ¬ (L.length = 0) := by omega
    simp [Selection.getSelectedElements, h, h0, hL, hall]
  refine ⟨?_, hmany, ?_, ?_⟩
  · intro hL
    subst hL
    simp [Selection.getSelectedElements, h]
  · intro hne hor
    have h0 : ¬ (L.length = 0) := by
      intro h0
      exact hne (List.length_eq_zero.mp h0)
    have hc : ¬ (L.length > 1 ∧ s.acceptAll = false) := by
      rintro ⟨h1, h2⟩
      rcases hor with h3 | h3
      · omega
      · rw [h2] at h3; cases h3
    simp only [Selection.getSelectedElements, h, h0, hc, if_false]
  · intro h2 hall
    refine ⟨?_, ?_⟩
    · rw [hmany (by omega) hall, h2]
      rfl
    · have h0 : ¬ (L.length = 0) := by omega
      have hA : s.All.getElements dom st = (.ret L none, st2) := by
        rw [getElements_All]; exact h
      have hAll : s.All.acceptAll = true := rfl
      simp only [Selection.getSelectedElements, hA, h0, hAll, if_false]
      simp

/-- C4 on the test document: `Find("#selector")` resolves to the two parents, so
SelectMultiple fails naming 2, and succeeds with both after `All()`. -/
theorem C4_select_multiple_witness :
    testSelection.getElements (recordingDom testChild) []
      = (.ret [1, 2] none, [(none, ⟨"css selector", "#selector", 0, false⟩)]) ∧
    testSelection.getSelectedElements (recordingDom testChild) []
      = (.ret [] (some "method requires All() for multiple elements (2) "),
          [(none, ⟨"css selector", "#selector", 0, false⟩)]) ∧
    testSelection.All.getSelectedElements (recordingDom testChild) []
      = (.ret [1, 2] none, [(none, ⟨"css selector", "#selector", 0, false⟩)]) :=
  ⟨by decide,
   (C4_select_multiple (recordingDom testChild) testSelection [] _ [1, 2]
      (by decide)).2.2.2 rfl (by decide)⟩

/-! ## The chain builders -/

theorem get_snoc_last {α : Type} (init : List α) (x : α) (i : Nat)
    (h : i < (init ++ [x]).length) (hi : i = (init ++ [x]).length - 1) :
    (init ++ [x]).get ⟨i, h⟩ = x := by
  have hlen : i = init.length := by simp at hi; exact hi
  subst hlen
  simp

theorem take_snoc_last {α : Type} (init : List α) (x : α) :
    (init ++ [x]).take ((init ++ [x]).length - 1) = init := by
  simp

theorem snoc_length_ne_zero {α : Type} (init : List α) (x : α) :
    (init ++ [x]).length ≠ 0 := by
  simp

theorem At_snoc (client : Retriever σ E) (all : Bool) (init : List Selector) (l : Selector)
    (i : Int) :
    Selection.At ⟨client, init ++ [l], all⟩ i
      = ⟨client, init ++ [{ l with Index := i, Indexed := true }], all⟩ := by
  unfold Selection.At
  rw [dif_neg (snoc_length_ne_zero init l)]
  simp only [newSelectors, List.nil_append, take_snoc_last]
  rw [get_snoc_last init l _ _ rfl]

theorem mergedSelection_snoc (client : Retriever σ E) (all : Bool) (init : List Selector)
    (l : Selector) (v : String) (h : (init ++ [l]).length ≠ 0) :
    Selection.mergedSelection ⟨client, init ++ [l], all⟩ v h
      = ⟨client, init ++ [⟨"css selector", l.Value ++ " " ++ v, 0, false⟩], all⟩ := by
  unfold Selection.mergedSelection
  simp only [newSelectors, List.nil_append, take_snoc_last]
  rw [get_snoc_last init l _ _ rfl]

theorem Find_snoc (client : Retriever σ E) (all : Bool) (init : List Selector) (l : Selector)
    (v : String) :
    Selection.Find ⟨client, init ++ [l], all⟩ v
      = if l.Using = "css selector" ∧ l.Indexed = false then
          ⟨client, init ++ [⟨"css selector", l.Value ++ " " ++ v, 0, false⟩], all⟩
        else
          ⟨client, (init ++ [l]) ++ [⟨"css selector", v, 0, false⟩], all⟩ := by
  unfold Selection.Find
  rw [dif_neg (snoc_length_ne_zero init l)]
  simp only [get_snoc_last init l _ _ rfl, mergedSelection_snoc]
  rfl

theorem Find_nil (client : Retriever σ E) (all : Bool) (v : String) :
    Selection.Find ⟨client, [], all⟩ v = ⟨client, [⟨"css selector", v, 0, false⟩], all⟩ := by
  rfl

/-! ## C5 -/

/-- C5: one step of `Find`. If the chain is not empty and its last criterion is an unindexed
CSS criterion with value `w`, then `c.Find(v)` has the criteria of `c` with the last one
replaced by the unindexed CSS criterion of value `w ++ " " ++ v` (same length); in every
other case (empty chain, last criterion indexed, or of another strategy) it is the criteria
of `c` followed by the new unindexed CSS criterion of value `v` (length + 1). `FindXPath` and
`FindLink` always append. -/
theorem C5_find_one_step (c : Selection σ E) (v : String) :
    (∀ (init : List Selector) (l : Selector), c.selectors = init ++ [l] →
      l.Using = "css selector" → l.Indexed = false →
        (c.Find v).selectors = init ++ [⟨"css selector", l.Value ++ " " ++ v, 0, false⟩] ∧
        (c.Find v).selectors.length = c.selectors.length) ∧
    ((c.selectors = [] ∨ ∃ (init : List Selector) (l : Selector), c.selectors = init ++ [l] ∧
        (l.Indexed = true ∨ l.Using ≠ "css selector")) →
        (c.Find v).selectors = c.selectors ++ [⟨"css selector", v, 0, false⟩] ∧
        (c.Find v).selectors.length = c.selectors.length + 1) ∧
    (c.FindXPath v).selectors = c.selectors ++ [⟨"xpath", v, 0, false⟩] ∧
    (c.FindLink v).selectors = c.selectors ++ [⟨"link text", v, 0, false⟩] := by
  rcases c with ⟨client, sels, all⟩
  refine ⟨?_, ?_, ?_, ?_⟩
  · intro init l hsel hcss hidx
    simp only at hsel
    subst hsel
    rw [Find_snoc, if_pos ⟨hcss, hidx⟩]
    simp
  · intro hcase
    rcases hcase with hnil | ⟨init, l, hsel, hl⟩
    · simp only at hnil
      subst hnil
      rw [Find_nil]
      simp
    · simp only at hsel
      subst hsel
      have hn : ¬ (l.Using = "css selector" ∧ l.Indexed = false) := by
        rintro ⟨h1, h2⟩
        rcases hl with h3 | h3
        · rw [h2] at h3; cases h3
        · exact h3 h1
      rw [Find_snoc, if_neg hn]
      simp
  · simp [Selection.FindXPath, Selection.subSelection, newSelectors]
  · simp [Selection.FindLink, Selection.subSelection, newSelectors]

/-- C5 on the chains of `selection_test.go`: `Find` merges into an unindexed CSS criterion
and appends after an indexed one. -/
theorem C5_find_one_step_witness :
    testSelection.selectors = [] ++ [⟨"css selector", "#selector", 0, false⟩] ∧
    (testSelection.Find "#subselector").selectors
      = [⟨"css selector", "#selector #subselector", 0, false⟩] ∧
    ((testSelection.At 0).Find "#subselector").selectors
      = [⟨"css selector", "#selector", 0, true⟩, ⟨"css selector", "#subselector", 0, false⟩] :=
  ⟨by decide,
   ((C5_find_one_step testSelection "#subselector").1 []
      ⟨"css selector", "#selector", 0, false⟩ (by decide) rfl rfl).1,
   ((C5_find_one_step (testSelection.At 0) "#subselector").2.1
      (Or.inr ⟨[], ⟨"css selector", "#selector", 0, true⟩, by decide, Or.inl rfl⟩)).1⟩

/-! ## C6 -/

theorem Find_foldl_css (client : Retriever σ E) (all : Bool) (vs : List String)
    (init : List Selector) (w : String) :
    (vs.foldl Selection.Find (⟨client, init ++ [⟨"css selector", w, 0, false⟩], all⟩ :
        Selection σ E)).selectors
      = init ++ [⟨"css selector", String.intercalate.go w " " vs, 0, false⟩] := by
  induction vs generalizing w with
  | nil => simp [String.intercalate.go]
  | cons v vs ih =>
    rw [List.foldl, Find_snoc, if_pos ⟨rfl, rfl⟩]
    simpa [String.intercalate.go] using ih (w ++ " " ++ v)

/-- C6: consecutive CSS extensions collapse. For a chain `c` that is empty or whose last
criterion is not an unindexed CSS criterion, and a non-empty list `v1, ..., vn`,
`c.Find(v1).Find(v2)...Find(vn)` has exactly the criteria of `c` followed by one unindexed
CSS criterion whose value is `v1, ..., vn` joined in order by single spaces. -/
theorem C6_css_collapse (c : Selection σ E) (v1 : String) (vs : List String)
    (h : c.selectors = [] ∨ ∃ (init : List Selector) (l : Selector),
      c.selectors = init ++ [l] ∧ ¬ (l.Using = "css selector" ∧ l.Indexed = false)) :
    ((v1 :: vs).foldl Selection.Find c).selectors
      = c.selectors ++ [⟨"css selector", String.intercalate " " (v1 :: vs), 0, false⟩] := by
  rcases c with ⟨client, sels, all⟩
  have hfirst : Selection.Find ⟨client, sels, all⟩ v1
      = ⟨client, sels ++ [⟨"css selector", v1, 0, false⟩], all⟩ := by
    rcases h with hnil | ⟨init, l, hsel, hl⟩
    · simp only at hnil
      subst hnil
      rw [Find_nil]
      simp
    · simp only at hsel
      subst hsel
      rw [Find_snoc, if_neg hl]
  simp only [List.foldl, hfirst, Find_foldl_css]
  rfl

/-- C6 after an XPath criterion: three `Find` calls leave one CSS criterion. -/
theorem C6_css_collapse_witness :
    ((Selection.new (recordingClient testRoot)).FindXPath "//p").selectors
      = [] ++ [⟨"xpath", "//p", 0, false⟩] ∧
    ((((Selection.new (recordingClient testRoot)).FindXPath "//p").Find "a").Find "b"
        |>.Find "c").selectors
      = [⟨"xpath", "//p", 0, false⟩, ⟨"css selector", "a b c", 0, false⟩] :=
  ⟨by decide,
   C6_css_collapse ((Selection.new (recordingClient testRoot)).FindXPath "//p") "a" ["b", "c"]
     (Or.inr ⟨[], ⟨"xpath", "//p", 0, false⟩, by decide, by decide⟩)⟩

/-! ## C7 -/

/-- C7: `At(i)`. On a chain without criteria, `c.At(i)` has no criteria and the same All-mode
flag. Otherwise every criterion but the last is the one of `c`, and the last keeps its
strategy and value with `Indexed = true` and `Index = i`. `At` never appends a criterion and
never changes the All-mode flag. -/
theorem C7_at (c : Selection σ E) (i : Int) :
    (c.selectors = [] → (c.At i).selectors = [] ∧ (c.At i).acceptAll = c.acceptAll) ∧
    (∀ (init : List Selector) (l : Selector), c.selectors = init ++ [l] →
      (c.At i).selectors = init ++ [⟨l.Using, l.Value, i, true⟩]) ∧
    (c.At i).selectors.length = c.selectors.length ∧
    (c.At i).acceptAll = c.acceptAll := by
  rcases c with ⟨client, sels, all⟩
  have hnil : Selection.At ⟨client, [], all⟩ i = (⟨client, [], all⟩ : Selection σ E) := rfl
  refine ⟨?_, ?_, ?_, ?_⟩
  · intro h
    simp only at h
    subst h
    rw [hnil]
    exact ⟨rfl, rfl⟩
  · intro init l h
    simp only at h
    subst h
    rw [At_snoc]
  · rcases List.eq_nil_or_concat sels with h | ⟨init, l, h⟩
    · subst h
      rw [hnil]
    · subst h
      rw [List.concat_eq_append, At_snoc]
      simp
  · rcases List.eq_nil_or_concat sels with h | ⟨init, l, h⟩
    · subst h
      rw [hnil]
    · subst h
      rw [List.concat_eq_append, At_snoc]

/-- C7 on `Find("#selector").FindXPath("children").At(1)`: only the last criterion is
indexed; on the empty chain `At` changes nothing. -/
theorem C7_at_witness :
    (testSelection.FindXPath "children").selectors
      = [⟨"css selector", "#selector", 0, false⟩] ++ [⟨"xpath", "children", 0, false⟩] ∧
    ((testSelection.FindXPath "children").At 1).selectors
      = [⟨"css selector", "#selector", 0, false⟩, ⟨"xpath", "children", 1, true⟩] ∧
    ((Selection.new (recordingClient testRoot)).At 3).selectors = [] :=
  ⟨by decide,
   (C7_at (testSelection.FindXPath "children") 1).2.1
     [⟨"css selector", "#selector", 0, false⟩] ⟨"xpath", "children", 0, false⟩ (by decide),
   ((C7_at (Selection.new (recordingClient testRoot)) 3).1 rfl).1⟩

/-! ## C8 -/

theorem tags_foldl_eq (l : List Selector) (acc : List String) :
    l.foldl (fun tags selector => tags ++ [selector.String]) acc
      = acc ++ l.map Selector.String := by
  induction l generalizing acc with
  | nil => simp
  | cons c l ih => simp [List.foldl, ih]

theorem intercalate_go_append (sep a b : String) (l : List String) :
    String.intercalate.go (a ++ b) sep l = a ++ String.intercalate.go b sep l := by
  induction l generalizing b with
  | nil => simp [String.intercalate.go]
  | cons t l ih =>
    simp only [String.intercalate.go]
    rw [String.append_assoc, String.append_assoc, ih, String.append_assoc]

theorem intercalate_eq_joinTags (l : List String) :
    String.intercalate " | " l = Spec.joinTags l := by
  induction l with
  | nil => rfl
  | cons t l ih =>
    cases l with
    | nil => rfl
    | cons u more =>
      rw [Spec.joinTags, ← ih]
      simp only [String.intercalate, String.intercalate.go]
      rw [intercalate_go_append]

/-- C8: rendering. `Selection.String()` is the renderings of the criteria in chain order
joined by ` | `, followed by ` - All` exactly when the chain is in All-mode. A criterion
renders as `CSS: <value>`, `XPath: <value>` or `Link: "<value>"`, with ` [<index>]` appended
when it is indexed. `Find("#a").At(1).FindXPath("//b")` renders as
`CSS: #a [1] | XPath: //b`, the same chain after `All()` as `CSS: #a [1] | XPath: //b - All`,
and the empty chain as the empty string. -/
theorem C8_rendering (s : Selection σ E) :
    s.String = Spec.render s.selectors s.acceptAll ∧
    s.String = String.intercalate " | " (s.selectors.map Selector.String)
        ++ (if s.acceptAll then " - All" else "") ∧
    (∀ (v : String) (i : Int) (indexed : Bool),
      Selector.String ⟨"css selector", v, i, indexed⟩
        = "CSS: " ++ v ++ (if indexed then " [" ++ toString i ++ "]" else "") ∧
      Selector.String ⟨"xpath", v, i, indexed⟩
        = "XPath: " ++ v ++ (if indexed then " [" ++ toString i ++ "]" else "") ∧
      Selector.String ⟨"link text", v, i, indexed⟩
        = "Link: \"" ++ v ++ "\"" ++ (if indexed then " [" ++ toString i ++ "]" else "")) ∧
    ((((Selection.new s.Client).Find "#a").At 1).FindXPath "//b").String
      = "CSS: #a [1] | XPath: //b" ∧
    ((((Selection.new s.Client).Find "#a").At 1).FindXPath "//b").All.String
      = "CSS: #a [1] | XPath: //b - All" ∧
    (Selection.new s.Client).String = "" := by
  have hjoin : s.String = String.intercalate " | " (s.selectors.map Selector.String)
      ++ (if s.acceptAll then " - All" else "") := by
    unfold Selection.String
    simp only [tags_foldl_eq, List.nil_append]
    cases s.acceptAll <;> simp
  refine ⟨?_, hjoin, ?_, ?_, ?_, ?_⟩
  · rw [hjoin, intercalate_eq_joinTags, Spec.render]
  · intro v i indexed
    refine ⟨?_, ?_, ?_⟩
    · simp [Selector.String]
    · have h1 : ¬ ("xpath" = "css selector") := by decide
      simp [Selector.String, h1]
    · have h1 : ¬ ("link text" = "css selector") := by decide
      have h2 : ¬ ("link text" = "xpath") := by decide
      simp [Selector.String, h1, h2]
  · rfl
  · rfl
  · rfl

/-! ## C9 -/

/-- C9: the empty chain. For every provider, also a failing one, and either value of the
All-mode flag, `Selection.getElements` on a chain without criteria fails with
`empty selection` and makes no provider call (the state is untouched; a recording provider
records nothing). So `Count` fails with that cause, wrapped with the rendering of the chain,
and SelectMultiple fails with it. -/
theorem C9_empty_chain (dom : E → Retriever σ E) (s : Selection σ E) (st : σ)
    (h : s.selectors = []) :
    s.getElements dom st = (.ret [] (some "empty selection"), st) ∧
    s.Count dom st
      = (.ret 0 (some ("failed to select '" ++ s.String ++ "': " ++ "empty selection")), st) ∧
    s.getSelectedElements dom st = (.ret [] (some "empty selection"), st) ∧
    (∀ (root : Selector → List E × Option String) (child : E → Selector → List E × Option String)
        (all : Bool) (log : List (Call E)),
      (Selection.getElements (recordingDom child) ⟨recordingClient root, [], all⟩ log).2 = log ∧
      (Selection.Count (recordingDom child) ⟨recordingClient root, [], all⟩ log).2 = log ∧
      (Selection.getSelectedElements (recordingDom child)
        ⟨recordingClient root, [], all⟩ log).2 = log) := by
  have hg : s.getElements dom st = (.ret [] (some "empty selection"), st) := by
    simp [Selection.getElements, h]
  refine ⟨hg, ?_, ?_, ?_⟩
  · simp [Selection.Count, hg]
  · simp [Selection.getSelectedElements, hg]
  · intro root child all log
    simp [Selection.getElements, Selection.Count, Selection.getSelectedElements]

/-- C9 with a root client all of whose calls fail: the empty chain fails with
`empty selection`, not with the client's error, and records no call. -/
theorem C9_empty_chain_witness :
    (Selection.new (recordingClient failingRoot)).selectors = [] ∧
    (Selection.new (recordingClient failingRoot)).getElements (recordingDom failingChild) []
      = (.ret [] (some "empty selection"), []) ∧
    (Selection.new (recordingClient failingRoot)).Count (recordingDom failingChild) []
      = (.ret 0 (some "failed to select '': empty selection"), []) ∧
    (Selection.new (recordingClient failingRoot)).All.Count (recordingDom failingChild) []
      = (.ret 0 (some "failed to select ' - All': empty selection"), []) :=
  ⟨rfl,
   (C9_empty_chain (recordingDom failingChild) (Selection.new (recordingClient failingRoot)) []
      rfl).1,
   (C9_empty_chain (recordingDom failingChild) (Selection.new (recordingClient failingRoot)) []
      rfl).2.1,
   (C9_empty_chain (recordingDom failingChild)
      (Selection.new (recordingClient failingRoot)).All [] rfl).2.1⟩

/-! ## C10 -/

theorem innerLoop_append (dom : E → Retriever σ E) (c : Selector) (pre rest acc : List E)
    (st : σ) :
    innerLoop dom c (pre ++ rest) acc st =
      match innerLoop dom c pre acc st with
      | (.ret acc2 none, st1) => innerLoop dom c rest acc2 st1
      | (.ret _ (some err), st1) => (.ret [] (some err), st1)
      | (.panic, st1) => (.panic, st1) := by
  induction pre generalizing acc st with
  | nil => simp [innerLoop]
  | cons e pre ih =>
    simp only [List.cons_append, innerLoop]
    rcases hg : getElements (dom e) c st with ⟨o, s1⟩
    cases o with
    | panic => rfl
    | ret v err =>
      cases err with
      | some er => rfl
      | none => exact ih (acc ++ v) s1

theorem outerLoop_append (dom : E → Retriever σ E) (cs1 cs2 : List Selector) (l : List E)
    (st : σ) :
    outerLoop dom (cs1 ++ cs2) l st =
      match outerLoop dom cs1 l st with
      | (.ret l2 none, st1) => outerLoop dom cs2 l2 st1
      | (.ret _ (some err), st1) => (.ret [] (some err), st1)
      | (.panic, st1) => (.panic, st1) := by
  induction cs1 generalizing l st with
  | nil => simp [outerLoop]
  | cons c cs1 ih =>
    simp only [List.cons_append, outerLoop]
    rcases hi : innerLoop dom c l [] st with ⟨o, s1⟩
    cases o with
    | panic => rfl
    | ret v err =>
      cases err with
      | some er => rfl
      | none => exact ih v s1

theorem getElements_provider_error (r : Retriever σ E) (c : Selector) (st st1 : σ)
    (l : List E) (e : String) (h : r c st = ((l, some e), st1)) :
    getElements r c st = (.ret [] (some e), st1) := by
  simp [getElements, h]

theorem getElements_fails_at (dom : E → Retriever σ E) (s : Selection σ E) (st st1 st2 st3 : σ)
    (c0 c : Selector) (cs1 cs2 : List Selector) (pre post m v : List E) (x : E) (e : String)
    (hsel : s.selectors = c0 :: (cs1 ++ c :: cs2))
    (hcur : Spec.resolve dom s.Client (c0 :: cs1) st = some (pre ++ x :: post, st1))
    (hpre : Spec.fanOut dom c pre st1 = some (m, st2))
    (hx : getElements (dom x) c st2 = (.ret v (some e), st3)) :
    s.getElements dom st = (.ret [] (some e), st3) := by
  have hcur2 := (getElements_resolve_iff dom ⟨s.Client, c0 :: cs1, s.acceptAll⟩ st st1
    (pre ++ x :: post)).mpr hcur
  have hpre2 := (innerLoop_ok_iff dom c pre [] m st1 st2).mpr ⟨m, hpre, by simp⟩
  unfold Selection.getElements at hcur2 ⊢
  simp only [hsel]
  simp only at hcur2
  rcases hg : getElements s.Client c0 st with ⟨o, s0⟩
  rw [hg] at hcur2
  cases o with
  | panic => simp at hcur2
  | ret l0 err =>
    cases err with
    | some er => simp at hcur2
    | none =>
      simp only at hcur2 ⊢
      rw [outerLoop_append, hcur2]
      simp only [outerLoop]
      rw [innerLoop_append, hpre2]
      simp only [innerLoop, hx]

/-- C10: provider failures short-circuit and propagate unchanged. On a non-empty chain, if
the root provider fails with `e` on the first criterion, `Selection.getElements` fails with
exactly `e`. At a later level `c`, with the current list `pre ++ x :: post`: if the elements
of `pre`, queried in order, all yield their matches and the query of `x` then fails with `e`
(in particular when the provider call of `x` fails with `e`), `getElements` fails with exactly
`e` and returns no elements; the state it ends in is the one the failing call left, so no
element after `x` and no later criterion is queried: the last call a recording provider
records is the query of `x`. -/
theorem C10_provider_failure_short_circuits (dom : E → Retriever σ E) (s : Selection σ E)
    (st : σ) :
    (∀ (c0 : Selector) (cs : List Selector) (l : List E) (e : String) (st1 : σ),
      s.selectors = c0 :: cs → s.Client c0 st = ((l, some e), st1) →
        s.getElements dom st = (.ret [] (some e), st1)) ∧
    (∀ (c0 c : Selector) (cs1 cs2 : List Selector) (pre post m v : List E) (x : E)
        (e : String) (st1 st2 st3 : σ),
      s.selectors = c0 :: (cs1 ++ c :: cs2) →
      Spec.resolve dom s.Client (c0 :: cs1) st = some (pre ++ x :: post, st1) →
      Spec.fanOut dom c pre st1 = some (m, st2) →
      getElements (dom x) c st2 = (.ret v (some e), st3) →
        s.getElements dom st = (.ret [] (some e), st3)) ∧
    (∀ (c0 c : Selector) (cs1 cs2 : List Selector) (pre post m l : List E) (x : E)
        (e : String) (st1 st2 st3 : σ),
      s.selectors = c0 :: (cs1 ++ c :: cs2) →
      Spec.resolve dom s.Client (c0 :: cs1) st = some (pre ++ x :: post, st1) →
      Spec.fanOut dom c pre st1 = some (m, st2) →
      dom x c st2 = ((l, some e), st3) →
        s.getElements dom st = (.ret [] (some e), st3)) ∧
    (∀ (root : Selector → List E × Option String) (child : E → Selector → List E × Option String)
        (all : Bool) (c0 c : Selector) (cs1 cs2 : List Selector) (pre post m l : List E)
        (x : E) (e : String) (log log1 log2 : List (Call E)),
      Spec.resolve (recordingDom child) (recordingClient root) (c0 :: cs1) log
        = some (pre ++ x :: post, log1) →
      Spec.fanOut (recordingDom child) c pre log1 = some (m, log2) →
      child x c = (l, some e) →
        Selection.getElements (recordingDom child)
            ⟨recordingClient root, c0 :: (cs1 ++ c :: cs2), all⟩ log
          = (.ret [] (some e), log2 ++ [(some x, c)])) := by
  refine ⟨?_, ?_, ?_, ?_⟩
  · intro c0 cs l e st1 hsel hroot
    simp [Selection.getElements, hsel, getElements_provider_error _ _ _ _ _ _ hroot]
  · intro c0 c cs1 cs2 pre post m v x e st1 st2 st3 hsel hcur hpre hx
    exact getElements_fails_at dom s st st1 st2 st3 c0 c cs1 cs2 pre post m v x e
      hsel hcur hpre hx
  · intro c0 c cs1 cs2 pre post m l x e st1 st2 st3 hsel hcur hpre hx
    exact getElements_fails_at dom s st st1 st2 st3 c0 c cs1 cs2 pre post m [] x e
      hsel hcur hpre (getElements_provider_error _ _ _ _ _ _ hx)
  · intro root child all c0 c cs1 cs2 pre post m l x e log log1 log2 hcur hpre hx
    exact getElements_fails_at (recordingDom child)
      ⟨recordingClient root, c0 :: (cs1 ++ c :: cs2), all⟩ log log1 log2 _ c0 c cs1 cs2
      pre post m [] x e rfl hcur hpre
      (getElements_provider_error _ _ _ _ l _ (by simp [recordingDom, hx]))

/-- C10 on the test document with a failing first parent and the chain
`Find("#selector").FindXPath("children").FindXPath("more")`: the error of the first parent
comes back unchanged; the second parent and the third criterion are never queried. With a
failing root client the root's error comes back after the one call. -/
theorem C10_provider_failure_short_circuits_witness :
    Spec.resolve (recordingDom failingChild) (recordingClient testRoot)
        [⟨"css selector", "#selector", 0, false⟩] []
      = some ([] ++ 1 :: [2], [(none, ⟨"css selector", "#selector", 0, false⟩)]) ∧
    ((testSelection.FindXPath "children").FindXPath "more").getElements
        (recordingDom failingChild) []
      = (.ret [] (some "some error"),
          [(none, ⟨"css selector", "#selector", 0, false⟩),
           (some 1, ⟨"xpath", "children", 0, false⟩)]) ∧
    (((Selection.new (recordingClient failingRoot)).Find "#selector").FindXPath
        "children").getElements (recordingDom testChild) []
      = (.ret [] (some "some error"), [(none, ⟨"css selector", "#selector", 0, false⟩)]) :=
  ⟨by decide,
   (C10_provider_failure_short_circuits (recordingDom failingChild)
      ((testSelection.FindXPath "children").FindXPath "more") []).2.2.1
      ⟨"css selector", "#selector", 0, false⟩ ⟨"xpath", "children", 0, false⟩ []
      [⟨"xpath", "more", 0, false⟩] [] [2] [] [] 1 "some error"
      [(none, ⟨"css selector", "#selector", 0, false⟩)]
      [(none, ⟨"css selector", "#selector", 0, false⟩)]
      [(none, ⟨"css selector", "#selector", 0, false⟩),
       (some 1, ⟨"xpath", "children", 0, false⟩)]
      (by decide) (by decide) (by decide) (by decide),
   (C10_provider_failure_short_circuits (recordingDom testChild)
      (((Selection.new (recordingClient failingRoot)).Find "#selector").FindXPath "children")
      []).1 ⟨"css selector", "#selector", 0, false⟩ [⟨"xpath", "children", 0, false⟩] []
      "some error" [(none, ⟨"css selector", "#selector", 0, false⟩)] (by decide) (by decide)⟩

/-! ## C11 -/

theorem resolve_snoc (dom : E → Retriever σ E) (root : Retriever σ E) (c0 c : Selector)
    (cs : List Selector) (st : σ) :
    Spec.resolve dom root (c0 :: (cs ++ [c])) st
      = Spec.level dom (Spec.resolve dom root (c0 :: cs) st) c := by
  simp [Spec.resolve, List.foldl_append]

theorem matchesOf_indexed (r : Retriever σ E) (c : Selector) (st st1 : σ) (m : List E)
    (hidx : c.Indexed = true) (h : Spec.matchesOf r c st = some (m, st1)) :
    ∃ (raw : List E) (x : E), r c st = ((raw, none), st1) ∧ 0 ≤ c.Index ∧
      raw.get? c.Index.toNat = some x ∧ m = [x] := by
  unfold Spec.matchesOf Spec.applyIndexing at h
  rcases hr : r c st with ⟨⟨raw, err⟩, s1⟩
  rw [hr] at h
  cases err with
  | some e => simp at h
  | none =>
    simp only [hidx, if_true] at h
    by_cases hb : 0 ≤ c.Index ∧ c.Index < (raw.length : Int)
    · simp only [hb, and_self, if_true] at h
      simp at h
      obtain ⟨a, ha, hm, hs⟩ := h
      exact ⟨raw, a, by rw [hs], hb.1, by simpa using ha, hm.symm⟩
    · simp [hb] at h

theorem fanOut_indexed (dom : E → Retriever σ E) (c : Selector) (parents L : List E)
    (st st2 : σ) (hidx : c.Indexed = true)
    (h : Spec.fanOut dom c parents st = some (L, st2)) :
    L.length = parents.length ∧
    List.Forall₂ (fun p x => ∃ (sa sb : σ) (raw : List E), dom p c sa = ((raw, none), sb) ∧
      0 ≤ c.Index ∧ raw.get? c.Index.toNat = some x) parents L := by
  induction parents generalizing L st with
  | nil =>
    simp only [Spec.fanOut, Option.some.injEq, Prod.mk.injEq] at h
    rw [← h.1]
    exact ⟨rfl, List.Forall₂.nil⟩
  | cons p rest ih =>
    simp only [Spec.fanOut] at h
    cases hm : Spec.matchesOf (dom p) c st with
    | none => simp [hm] at h
    | some q =>
      rcases q with ⟨m, s1⟩
      simp only [hm] at h
      cases hf : Spec.fanOut dom c rest s1 with
      | none => simp [hf] at h
      | some q2 =>
        rcases q2 with ⟨ms, s2⟩
        simp only [hf, Option.some.injEq, Prod.mk.injEq] at h
        obtain ⟨raw, x, hr, h0, hx, hmx⟩ := matchesOf_indexed (dom p) c st s1 m hidx hm
        obtain ⟨h1, h2⟩ := h
        subst h2
        obtain ⟨hlen, hall⟩ := ih ms s1 hf
        rw [← h1, hmx]
        refine ⟨by simp [hlen], ?_⟩
        exact List.Forall₂.cons ⟨st, s1, raw, hr, h0, hx⟩ hall

/-- C11, as the code has it: an index applies to each parent's own matches. For a chain with
at least two criteria whose last criterion is indexed with index `i`, when resolution
succeeds, the result has exactly one element per parent (the parents being the resolution of
the chain without its last criterion), in parent order: the element at position `i` of the
matches that the parent returns for the criterion. So the result has as many elements as
there are parents. -/
theorem C11_index_applies_per_parent (dom : E → Retriever σ E) (s : Selection σ E)
    (st st2 : σ) (L : List E) (init : List Selector) (c : Selector)
    (hsel : s.selectors = init ++ [c]) (hinit : init ≠ []) (hidx : c.Indexed = true)
    (h : s.getElements dom st = (.ret L none, st2)) :
    ∃ (parents : List E) (st1 : σ),
      Selection.getElements dom ⟨s.Client, init, s.acceptAll⟩ st = (.ret parents none, st1) ∧
      Spec.fanOut dom c parents st1 = some (L, st2) ∧
      L.length = parents.length ∧
      List.Forall₂ (fun p x => ∃ (sa sb : σ) (raw : List E), dom p c sa = ((raw, none), sb) ∧
        0 ≤ c.Index ∧ raw.get? c.Index.toNat = some x) parents L := by
  cases init with
  | nil => exact absurd rfl hinit
  | cons c0 cs =>
    have hr := (getElements_resolve_iff dom s st st2 L).mp h
    rw [hsel, List.cons_append, resolve_snoc] at hr
    cases hp : Spec.resolve dom s.Client (c0 :: cs) st with
    | none => simp [hp, Spec.level] at hr
    | some q =>
      rcases q with ⟨parents, st1⟩
      simp only [hp, Spec.level] at hr
      have hg := (getElements_resolve_iff dom ⟨s.Client, c0 :: cs, s.acceptAll⟩ st st1
        parents).mpr hp
      obtain ⟨hlen, hall⟩ := fanOut_indexed dom c parents L st1 st2 hidx hr
      exact ⟨parents, st1, hg, hr, hlen, hall⟩

/-- C11 on the test document: `Find("#selector").FindXPath("children").At(1)` resolves to the
second child of each of the two parents. -/
theorem C11_index_applies_per_parent_witness :
    ((testSelection.FindXPath "children").At 1).getElements (recordingDom testChild) []
      = (.ret [12, 22] none,
          [(none, ⟨"css selector", "#selector", 0, false⟩),
           (some 1, ⟨"xpath", "children", 1, true⟩),
           (some 2, ⟨"xpath", "children", 1, true⟩)]) ∧
    ∃ (parents : List Nat) (st1 : List (Call Nat)),
      Selection.getElements (recordingDom testChild)
        ⟨((testSelection.FindXPath "children").At 1).Client,
          [⟨"css selector", "#selector", 0, false⟩],
          ((testSelection.FindXPath "children").At 1).acceptAll⟩ []
        = (.ret parents none, st1) ∧
      Spec.fanOut (recordingDom testChild) ⟨"xpath", "children", 1, true⟩ parents st1
        = some ([12, 22],
          [(none, ⟨"css selector", "#selector", 0, false⟩),
           (some 1, ⟨"xpath", "children", 1, true⟩),
           (some 2, ⟨"xpath", "children", 1, true⟩)]) ∧
      [12, 22].length = parents.length ∧
      List.Forall₂ (fun p x => ∃ (sa sb : List (Call Nat)) (raw : List Nat),
        recordingDom testChild p ⟨"xpath", "children", 1, true⟩ sa = ((raw, none), sb) ∧
        0 ≤ (⟨"xpath", "children", 1, true⟩ : Selector).Index ∧
        raw.get? (⟨"xpath", "children", 1, true⟩ : Selector).Index.toNat = some x)
        parents [12, 22] :=
  ⟨by decide,
   C11_index_applies_per_parent (recordingDom testChild)
     ((testSelection.FindXPath "children").At 1) [] _ [12, 22]
     [⟨"css selector", "#selector", 0, false⟩] ⟨"xpath", "children", 1, true⟩
     (by decide) (by decide) rfl (by decide)⟩

/-- C11 as the claim states it fails on the test document: the candidate list of the second
level is `[11, 12, 21, 22]`, whose element at position 1 is `12`, but
`Find("#selector").FindXPath("children").At(1)` resolves to the two elements `[12, 22]`. -/
theorem C11_counterexample :
    ((testSelection.FindXPath "children").At 1).selectors
      = [⟨"css selector", "#selector", 0, false⟩, ⟨"xpath", "children", 1, true⟩] ∧
    Spec.wholeLevelPick (recordingDom testChild) ⟨"xpath", "children", 1, true⟩ [1, 2]
        [(none, ⟨"css selector", "#selector", 0, false⟩)]
      = some ([12],
          [(none, ⟨"css selector", "#selector", 0, false⟩),
           (some 1, ⟨"xpath", "children", 1, false⟩),
           (some 2, ⟨"xpath", "children", 1, false⟩)]) ∧
    ((testSelection.FindXPath "children").At 1).getElements (recordingDom testChild) []
      = (.ret [12, 22] none,
          [(none, ⟨"css selector", "#selector", 0, false⟩),
           (some 1, ⟨"xpath", "children", 1, true⟩),
           (some 2, ⟨"xpath", "children", 1, true⟩)]) ∧
    (((testSelection.FindXPath "children").At 1).getElements (recordingDom testChild) []).1
      ≠ .ret [12] none ∧
    ¬ (([12, 22] : List Nat).length ≤ 1) := by
  refine ⟨by decide, by decide, by decide, by decide, by decide⟩

/-! ## C12 -/

/-- C12, as the code has it: `EqualsElement` selects the receiver's element first. When that
succeeds (the receiver is not in All-mode and resolves to exactly one element), every
argument that is not a `*Selection` is refused with `provided object is not a selection`,
in the state the receiver's resolution left. When it fails with the cause `err`,
`EqualsElement` returns false with an error that carries `err`, whatever the argument is. -/
theorem C12_foreign_argument {A : Type} (dom : E → Retriever σ E) (IsEqualTo : EqualTo σ E)
    (s : Selection σ E) (a : A) (st : σ) :
    (∀ (e : E) (st1 : σ), s.getSelectedElement dom st = (.ret (some e) none, st1) →
      s.EqualsElement dom IsEqualTo (Comparable.other a) st
        = (.ret false (some "provided object is not a selection"), st1)) ∧
    (∀ (v : Option E) (err : String) (st1 : σ),
      s.getSelectedElement dom st = (.ret v (some err), st1) →
      ∃ wrapper : String, s.EqualsElement dom IsEqualTo (Comparable.other a) st
        = (.ret false (some (wrapper ++ err)), st1)) := by
  refine ⟨?_, ?_⟩
  · intro e st1 h
    simp [Selection.EqualsElement, h]
  · intro v err st1 h
    exact ⟨"failed to select '" ++ s.String ++ "': ", by simp [Selection.EqualsElement, h]⟩

/-- C12 on the test document: `Find("#selector").At(0)` selects one element, and a string
argument is refused. -/
theorem C12_foreign_argument_witness :
    (testSelection.At 0).getSelectedElement (recordingDom testChild) []
      = (.ret (some 1) none, [(none, ⟨"css selector", "#selector", 0, true⟩)]) ∧
    (testSelection.At 0).EqualsElement (recordingDom testChild) testEqualTo
        (Comparable.other "not a selection") []
      = (.ret false (some "provided object is not a selection"),
          [(none, ⟨"css selector", "#selector", 0, true⟩)]) :=
  ⟨by decide,
   (C12_foreign_argument (recordingDom testChild) testEqualTo (testSelection.At 0)
      "not a selection" []).1 1 _ (by decide)⟩

/-- C12 as the claim states it fails for a receiver that resolves to two elements: a string
argument is then answered with the receiver's selection error, not with
`provided object is not a selection`. -/
theorem C12_counterexample :
    testSelection.getElements (recordingDom testChild) []
      = (.ret [1, 2] none, [(none, ⟨"css selector", "#selector", 0, false⟩)]) ∧
    testSelection.EqualsElement (recordingDom testChild) testEqualTo
        (Comparable.other "not a selection") []
      = (.ret false (some "failed to select 'CSS: #selector': method does not support multiple elements (2) "),
          [(none, ⟨"css selector", "#selector", 0, false⟩)]) ∧
    (testSelection.EqualsElement (recordingDom testChild) testEqualTo
        (Comparable.other "not a selection") []).1
      ≠ .ret false (some "provided object is not a selection") := by
  refine ⟨by decide, by decide, by decide⟩

/-! ## C13 -/

theorem getSelectedElement_one (dom : E → Retriever σ E) (s : Selection σ E) (st st1 : σ)
    (e : E) (hall : s.acceptAll = false) (h : s.getElements dom st = (.ret [e] none, st1)) :
    s.getSelectedElement dom st = (.ret (some e) none, st1) := by
  simp [Selection.getSelectedElement, hall, h]

theorem getSelectedElement_ok_imp (dom : E → Retriever σ E) (s : Selection σ E) (st st1 : σ)
    (v : Option E) (h : s.getSelectedElement dom st = (.ret v none, st1)) :
    ∃ e, v = some e ∧ s.acceptAll = false ∧ s.getElements dom st = (.ret [e] none, st1) := by
  unfold Selection.getSelectedElement at h
  cases hall : s.acceptAll with
  | true => simp [hall] at h
  | false =>
    simp only [hall, Bool.false_eq_true, if_false] at h
    rcases hg : s.getElements dom st with ⟨o, s1⟩
    rw [hg] at h
    cases o with
    | panic => simp at h
    | ret l err =>
      cases err with
      | some er => simp at h
      | none =>
        match l, h with
        | [], h => simp at h
        | [x], h =>
          simp at h
          exact ⟨x, h.1.symm, rfl, by rw [h.2]⟩
        | x :: y :: r, h => simp at h

/-- C13: `EqualsElement` delegates to the element comparison. For chains `a` and `b` not in
All-mode that resolve, `a` first and `b` next, to exactly the elements `ea` and `eb`,
`a.EqualsElement(b)` calls `ea.IsEqualTo(eb)`: it returns the boolean of the comparison and
no error when the comparison succeeds, and false with the error
`failed to compare '<a.String()>' to '<b.String()>': <e>` when the comparison fails with `e`.
If either side is in All-mode or does not resolve to exactly one element, it fails: whatever
it returns is false together with an error. -/
theorem C13_equals_element_delegates {A : Type} (dom : E → Retriever σ E)
    (IsEqualTo : EqualTo σ E) (a b : Selection σ E) (st : σ) :
    (∀ (ea eb : E) (st1 st2 st3 : σ) (r : Bool),
      a.acceptAll = false → a.getElements dom st = (.ret [ea] none, st1) →
      b.acceptAll = false → b.getElements dom st1 = (.ret [eb] none, st2) →
      IsEqualTo ea eb st2 = ((r, none), st3) →
        a.EqualsElement dom IsEqualTo (Comparable.selection b : Comparable σ E A) st
          = (.ret r none, st3)) ∧
    (∀ (ea eb : E) (st1 st2 st3 : σ) (r : Bool) (e : String),
      a.acceptAll = false → a.getElements dom st = (.ret [ea] none, st1) →
      b.acceptAll = false → b.getElements dom st1 = (.ret [eb] none, st2) →
      IsEqualTo ea eb st2 = ((r, some e), st3) →
        a.EqualsElement dom IsEqualTo (Comparable.selection b : Comparable σ E A) st
          = (.ret false (some ("failed to compare '" ++ a.String ++ "' to '" ++ b.String
              ++ "': " ++ e)), st3)) ∧
    ((¬ ∃ (ea : E) (st1 : σ), a.acceptAll = false ∧
        a.getElements dom st = (.ret [ea] none, st1)) →
      ∀ (r : Bool) (err : Option String),
        (a.EqualsElement dom IsEqualTo (Comparable.selection b : Comparable σ E A) st).1
          = .ret r err → r = false ∧ err ≠ none) ∧
    (∀ (ea : E) (st1 : σ), a.acceptAll = false →
      a.getElements dom st = (.ret [ea] none, st1) →
      (¬ ∃ (eb : E) (st2 : σ), b.acceptAll = false ∧
        b.getElements dom st1 = (.ret [eb] none, st2)) →
      ∀ (r : Bool) (err : Option String),
        (a.EqualsElement dom IsEqualTo (Comparable.selection b : Comparable σ E A) st).1
          = .ret r err → r = false ∧ err ≠ none) := by
  refine ⟨?_, ?_, ?_, ?_⟩
  · intro ea eb st1 st2 st3 r ha hga hb hgb heq
    simp [Selection.EqualsElement, getSelectedElement_one dom a st st1 ea ha hga,
      getSelectedElement_one dom b st1 st2 eb hb hgb, heq]
  · intro ea eb st1 st2 st3 r e ha hga hb hgb heq
    simp [Selection.EqualsElement, getSelectedElement_one dom a st st1 ea ha hga,
      getSelectedElement_one dom b st1 st2 eb hb hgb, heq]
  · intro hno r err hres
    unfold Selection.EqualsElement at hres
    rcases hs : a.getSelectedElement dom st with ⟨o, s1⟩
    rw [hs] at hres
    cases o with
    | panic => simp at hres
    | ret v e1 =>
      cases e1 with
      | some er =>
        simp only [Outcome.ret.injEq] at hres
        exact ⟨hres.1.symm, by rw [← hres.2]; simp⟩
      | none =>
        obtain ⟨e, _, hall, hg⟩ := getSelectedElement_ok_imp dom a st s1 v hs
        exact absurd ⟨e, s1, hall, hg⟩ hno
  · intro ea st1 ha hga hno r err hres
    unfold Selection.EqualsElement at hres
    rw [getSelectedElement_one dom a st st1 ea ha hga] at hres
    simp only at hres
    rcases hs : b.getSelectedElement dom st1 with ⟨o, s2⟩
    rw [hs] at hres
    cases o with
    | panic => simp at hres
    | ret v e1 =>
      cases e1 with
      | some er =>
        simp only [Outcome.ret.injEq] at hres
        exact ⟨hres.1.symm, by rw [← hres.2]; simp⟩
      | none =>
        obtain ⟨e, _, hall, hg⟩ := getSelectedElement_ok_imp dom b st1 s2 v hs
        exact absurd ⟨e, s2, hall, hg⟩ hno

/-- C13 on the test document: `Find("#selector").At(0)` and `Find("#selector").At(1)` select
the two parents, which differ; with a failing comparison the error is wrapped with both
renderings. -/
theorem C13_equals_element_delegates_witness :
    (testSelection.At 0).getElements (recordingDom testChild) []
      = (.ret [1] none, [(none, ⟨"css selector", "#selector", 0, true⟩)]) ∧
    (testSelection.At 1).getElements (recordingDom testChild)
        [(none, ⟨"css selector", "#selector", 0, true⟩)]
      = (.ret [2] none, [(none, ⟨"css selector", "#selector", 0, true⟩),
          (none, ⟨"css selector", "#selector", 1, true⟩)]) ∧
    (testSelection.At 0).EqualsElement (recordingDom testChild) testEqualTo
        (Comparable.selection (testSelection.At 1) : Comparable _ _ Unit) []
      = (.ret false none, [(none, ⟨"css selector", "#selector", 0, true⟩),
          (none, ⟨"css selector", "#selector", 1, true⟩)]) ∧
    (testSelection.At 0).EqualsElement (recordingDom testChild) failingEqualTo
        (Comparable.selection (testSelection.At 1) : Comparable _ _ Unit) []
      = (.ret false (some "failed to compare 'CSS: #selector [0]' to 'CSS: #selector [1]': some error"),
          [(none, ⟨"css selector", "#selector", 0, true⟩),
           (none, ⟨"css selector", "#selector", 1, true⟩)]) :=
  ⟨by decide, by decide,
   (C13_equals_element_delegates (recordingDom testChild) testEqualTo (testSelection.At 0)
      (testSelection.At 1) []).1 1 2
      [(none, ⟨"css selector", "#selector", 0, true⟩)]
      [(none, ⟨"css selector", "#selector", 0, true⟩),
       (none, ⟨"css selector", "#selector", 1, true⟩)]
      [(none, ⟨"css selector", "#selector", 0, true⟩),
       (none, ⟨"css selector", "#selector", 1, true⟩)]
      false (by decide) (by decide) (by decide) (by decide) (by decide),
   (C13_equals_element_delegates (recordingDom testChild) failingEqualTo (testSelection.At 0)
      (testSelection.At 1) []).2.1 1 2
      [(none, ⟨"css selector", "#selector", 0, true⟩)]
      [(none, ⟨"css selector", "#selector", 0, true⟩),
       (none, ⟨"css selector", "#selector", 1, true⟩)]
      [(none, ⟨"css selector", "#selector", 0, true⟩),
       (none, ⟨"css selector", "#selector", 1, true⟩)]
      false "some error" (by decide) (by decide) (by decide) (by decide) (by decide)⟩

/-! ## C14 -/

/-- C14 at the inputs of the tests: on the empty chain `Count` returns 0 with the error
`failed to select '': empty selection`, and on `Find("#selector")` with a failing client
`failed to select 'CSS: #selector': some error`; the tests expect
`failed to retrieve elements for '': empty selection` and
`failed to retrieve elements for 'CSS: #selector': some error`. -/
theorem C14_count_wrapping_at_test_inputs :
    (Selection.new (recordingClient testRoot)).Count (recordingDom testChild) []
      = (.ret 0 (some "failed to select '': empty selection"), []) ∧
    ((Selection.new (recordingClient testRoot)).Count (recordingDom testChild) []).1
      ≠ .ret 0 (some "failed to retrieve elements for '': empty selection") ∧
    ((Selection.new (recordingClient failingRoot)).Find "#selector").Count
        (recordingDom testChild) []
      = (.ret 0 (some "failed to select 'CSS: #selector': some error"),
          [(none, ⟨"css selector", "#selector", 0, false⟩)]) ∧
    (((Selection.new (recordingClient failingRoot)).Find "#selector").Count
        (recordingDom testChild) []).1
      ≠ .ret 0 (some "failed to retrieve elements for 'CSS: #selector': some error") := by
  refine ⟨by decide, by decide, by decide, by decide⟩

/-! ## C15 -/

/-- C15 at the inputs of the tests: when `Find("#selector")` resolves to two elements,
`EqualsElement` returns the error
`failed to select 'CSS: #selector': method does not support multiple elements (2) `, for the
receiver and for the other chain alike; the tests expect
`failed to retrieve element with 'CSS: #selector': multiple elements (2) were selected`. -/
theorem C15_single_element_message_at_test_inputs :
    testSelection.getElements (recordingDom testChild) []
      = (.ret [1, 2] none, [(none, ⟨"css selector", "#selector", 0, false⟩)]) ∧
    testSelection.EqualsElement (recordingDom testChild) testEqualTo
        (Comparable.selection (testSelection.At 0) : Comparable _ _ Unit) []
      = (.ret false (some "failed to select 'CSS: #selector': method does not support multiple elements (2) "),
          [(none, ⟨"css selector", "#selector", 0, false⟩)]) ∧
    (testSelection.EqualsElement (recordingDom testChild) testEqualTo
        (Comparable.selection (testSelection.At 0) : Comparable _ _ Unit) []).1
      ≠ .ret false (some "failed to retrieve element with 'CSS: #selector': multiple elements (2) were selected") ∧
    (testSelection.At 0).EqualsElement (recordingDom testChild) testEqualTo
        (Comparable.selection testSelection : Comparable _ _ Unit) []
      = (.ret false (some "failed to select 'CSS: #selector': method does not support multiple elements (2) "),
          [(none, ⟨"css selector", "#selector", 0, true⟩),
           (none, ⟨"css selector", "#selector", 0, false⟩)]) ∧
    ((testSelection.At 0).EqualsElement (recordingDom testChild) testEqualTo
        (Comparable.selection testSelection : Comparable _ _ Unit) []).1
      ≠ .ret false (some "failed to retrieve element with 'CSS: #selector': multiple elements (2) were selected") := by
  refine ⟨by decide, by decide, by decide, by decide, by decide⟩

/-! ## C16 -/

/-- C16: `All()`. `c.All()` has exactly the criteria of `c`, in the same order, and the client
of `c`; its All-mode flag is true; and `c.All().All()` equals `c.All()`. -/
theorem C16_all (c : Selection σ E) :
    c.All.selectors = c.selectors ∧
    c.All.Client = c.Client ∧
    c.All.acceptAll = true ∧
    c.All.All = c.All := by
  refine ⟨?_, rfl, rfl, ?_⟩
  · simp [Selection.All, newSelectors]
  · simp [Selection.All, newSelectors]

/-! ## C18 -/

/-- C18 at a selection in All-mode: on the test document `Find("#selector").All()` resolves to
the two parents, and `Selected` and `Visible` ask the elements and return a boolean and no
error; `Find("#selector").FindXPath("children").At(1).All()` resolves to two elements and
`Selected` returns true. The doc comments of the matchers `BeSelected` and `BeVisible` say
that they fail when the selection refers to more than one element. Without `All()` the same
two-element resolution is refused with an error, as they say. -/
theorem C18_all_mode_state_query_at_test_input :
    testSelection.All.getElements (recordingDom testChild) []
      = (.ret [1, 2] none, [(none, ⟨"css selector", "#selector", 0, false⟩)]) ∧
    testSelection.All.Selected (recordingDom testChild) testState []
      = (.ret false none, [(none, ⟨"css selector", "#selector", 0, false⟩)]) ∧
    testSelection.All.Visible (recordingDom testChild) testState []
      = (.ret false none, [(none, ⟨"css selector", "#selector", 0, false⟩)]) ∧
    ((testSelection.FindXPath "children").At 1).All.getElements (recordingDom testChild) []
      = (.ret [12, 22] none,
          [(none, ⟨"css selector", "#selector", 0, false⟩),
           (some 1, ⟨"xpath", "children", 1, true⟩),
           (some 2, ⟨"xpath", "children", 1, true⟩)]) ∧
    ((testSelection.FindXPath "children").At 1).All.Selected (recordingDom testChild)
        testState []
      = (.ret true none,
          [(none, ⟨"css selector", "#selector", 0, false⟩),
           (some 1, ⟨"xpath", "children", 1, true⟩),
           (some 2, ⟨"xpath", "children", 1, true⟩)]) ∧
    testSelection.getElements (recordingDom testChild) []
      = (.ret [1, 2] none, [(none, ⟨"css selector", "#selector", 0, false⟩)]) ∧
    testSelection.Selected (recordingDom testChild) testState []
      = (.ret false
          (some "failed to select 'CSS: #selector': method requires All() for multiple elements (2) "),
          [(none, ⟨"css selector", "#selector", 0, false⟩)]) ∧
    testSelection.Visible (recordingDom testChild) testState []
      = (.ret false
          (some "failed to select 'CSS: #selector': method requires All() for multiple elements (2) "),
          [(none, ⟨"css selector", "#selector", 0, false⟩)]) := by
  refine ⟨by decide, by decide, by decide, by decide, by decide, by decide, by decide,
    by decide⟩

/-! ## C19 -/

theorem hasStateLoop_allPass (method : StateMethod σ E) (name rendering : String)
    (L : List E) (st st2 : σ) (h : Spec.allPass method L st = some st2) :
    hasStateLoop method name rendering L st = (.ret true none, st2) := by
  induction L generalizing st with
  | nil =>
    simp only [Spec.allPass, Option.some.injEq] at h
    simp [hasStateLoop, h]
  | cons e rest ih =>
    simp only [Spec.allPass] at h
    rcases hm : method e st with ⟨⟨b, err⟩, s1⟩
    rw [hm] at h
    cases err with
    | some er => simp at h
    | none =>
      cases b with
      | false => simp at h
      | true =>
        simp only at h
        simp [hasStateLoop, hm, ih s1 h]

theorem hasStateLoop_append (method : StateMethod σ E) (name rendering : String)
    (pre rest : List E) (st st2 : σ) (h : Spec.allPass method pre st = some st2) :
    hasStateLoop method name rendering (pre ++ rest) st
      = hasStateLoop method name rendering rest st2 := by
  induction pre generalizing st with
  | nil =>
    simp only [Spec.allPass, Option.some.injEq] at h
    simp [h]
  | cons e pre ih =>
    simp only [Spec.allPass] at h
    rcases hm : method e st with ⟨⟨b, err⟩, s1⟩
    rw [hm] at h
    cases err with
    | some er => simp at h
    | none =>
      cases b with
      | false => simp at h
      | true =>
        simp only at h
        simp [hasStateLoop, hm, ih s1 h]

theorem hasStateLoop_pure (method : StateMethod σ E) (name rendering : String)
    (f : E → Bool) (step : E → σ → σ)
    (hm : ∀ (e : E) (st : σ), method e st = ((f e, none), step e st)) (L : List E) (st : σ) :
    (hasStateLoop method name rendering L st).1 = .ret (L.all f) none := by
  induction L generalizing st with
  | nil => simp [hasStateLoop]
  | cons e rest ih =>
    simp only [hasStateLoop, hm, List.all_cons]
    cases hf : f e with
    | false => simp
    | true => simpa using ih (step e st)

/-- C19: state aggregation. For a chain accepted by SelectMultiple with the elements `L`,
`hasState` asks the elements in order. If all answer true it returns true. If the elements
before `x` answer true and `x` answers false, it returns false with no error in the state
that the query of `x` left, so whatever comes after `x`, also an element whose query would
fail, is never asked. If `x` fails instead, its error is reported. For a method that fails on
no element and answers `f e` on `e`, the result is true if and only if `f` is true on every
element of `L`. -/
theorem C19_state_aggregation (dom : E → Retriever σ E) (method : StateMethod σ E)
    (name : String) (s : Selection σ E) (st st1 : σ) (L : List E)
    (h : s.getSelectedElements dom st = (.ret L none, st1)) :
    (∀ (st2 : σ), Spec.allPass method L st1 = some st2 →
      s.hasState dom method name st = (.ret true none, st2)) ∧
    (∀ (pre post : List E) (x : E) (st2 st3 : σ), L = pre ++ x :: post →
      Spec.allPass method pre st1 = some st2 → method x st2 = ((false, none), st3) →
      s.hasState dom method name st = (.ret false none, st3)) ∧
    (∀ (pre post : List E) (x : E) (st2 st3 : σ) (b : Bool) (err : String),
      L = pre ++ x :: post →
      Spec.allPass method pre st1 = some st2 → method x st2 = ((b, some err), st3) →
      s.hasState dom method name st
        = (.ret false (some ("failed to determine whether some '" ++ s.String ++ "' is "
            ++ name ++ ": " ++ err)), st3)) ∧
    (∀ (f : E → Bool) (step : E → σ → σ),
      (∀ (e : E) (st0 : σ), method e st0 = ((f e, none), step e st0)) →
      (s.hasState dom method name st).1 = .ret (L.all f) none ∧
      ((s.hasState dom method name st).1 = .ret true none ↔ ∀ e ∈ L, f e = true)) := by
  have hs : s.hasState dom method name st = hasStateLoop method name s.String L st1 := by
    simp [Selection.hasState, h]
  refine ⟨?_, ?_, ?_, ?_⟩
  · intro st2 hp
    rw [hs, hasStateLoop_allPass method name s.String L st1 st2 hp]
  · intro pre post x st2 st3 hL hp hx
    rw [hs, hL, hasStateLoop_append method name s.String pre (x :: post) st1 st2 hp]
    simp [hasStateLoop, hx]
  · intro pre post x st2 st3 b err hL hp hx
    rw [hs, hL, hasStateLoop_append method name s.String pre (x :: post) st1 st2 hp]
    simp [hasStateLoop, hx]
  · intro f step hm
    have hp := hasStateLoop_pure method name s.String f step hm L st1
    rw [hs, hp]
    refine ⟨rfl, ?_⟩
    simp [List.all_eq_true]

/-- C19 on the test document, where the elements with an even number are in the state:
`Find("#selector").All()` has the elements `1` and `2` and stops at `1`, the first that
answers false. -/
theorem C19_state_aggregation_witness :
    testSelection.All.getSelectedElements (recordingDom testChild) []
      = (.ret ([] ++ 1 :: [2]) none, [(none, ⟨"css selector", "#selector", 0, false⟩)]) ∧
    testSelection.All.hasState (recordingDom testChild) testState "selected" []
      = (.ret false none, [(none, ⟨"css selector", "#selector", 0, false⟩)]) :=
  ⟨by decide,
   (C19_state_aggregation (recordingDom testChild) testState "selected" testSelection.All []
      [(none, ⟨"css selector", "#selector", 0, false⟩)] ([] ++ 1 :: [2]) (by decide)).2.1
      [] [2] 1 [(none, ⟨"css selector", "#selector", 0, false⟩)]
      [(none, ⟨"css selector", "#selector", 0, false⟩)] rfl (by decide) (by decide)⟩

/-! ## C20 -/

/-- C20 at a negative index: on the test document, whose root returns two elements,
`Find("#selector").At(-1)` passes the range test `Index >= len(elements)` and the access
`elements[Index]` panics; no error is returned and no element either. -/
theorem C20_negative_index_panics :
    (testSelection.At (-1)).selectors = [⟨"css selector", "#selector", -1, true⟩] ∧
    recordingClient testRoot ⟨"css selector", "#selector", -1, true⟩ []
      = (([1, 2], none), [(none, ⟨"css selector", "#selector", -1, true⟩)]) ∧
    getElements (recordingClient testRoot) ⟨"css selector", "#selector", -1, true⟩ []
      = (.panic, [(none, ⟨"css selector", "#selector", -1, true⟩)]) ∧
    (testSelection.At (-1)).getElements (recordingDom testChild) []
      = (.panic, [(none, ⟨"css selector", "#selector", -1, true⟩)]) := by
  refine ⟨by decide, by decide, by decide, by decide⟩

/-! ## The slices of criteria in memory: `append` and `newSelectors` -/

theorem getElem?_of_take_eq (mem mem2 : Memory) (n k : Nat) (hk : k < n)
    (h : mem2.take n = mem.take n) : mem2[k]? = mem[k]? := by
  have h1 : (mem2.take n)[k]? = (mem.take n)[k]? := by rw [h]
  rw [List.getElem?_take_of_lt hk, List.getElem?_take_of_lt hk] at h1
  exact h1

theorem elems_of_take_eq (mem mem2 : Memory) (sl : Slice) (hv : sl.Valid mem)
    (h : mem2.take mem.length = mem) : sl.elems mem2 = sl.elems mem := by
  unfold Slice.elems Slice.cells
  unfold Slice.Valid at hv
  cases ha : sl.array with
  | none => rfl
  | some k =>
    rw [ha] at hv
    simp only
    rw [getElem?_of_take_eq mem mem2 mem.length k hv.1 (by rw [h, List.take_length])]

theorem valid_of_take_eq (mem mem2 : Memory) (sl : Slice) (hv : sl.Valid mem)
    (h : mem2.take mem.length = mem) : sl.Valid mem2 := by
  unfold Slice.Valid at hv ⊢
  cases ha : sl.array with
  | none => rw [ha] at hv; exact hv
  | some k =>
    rw [ha] at hv
    simp only
    have hlen : mem.length ≤ mem2.length := by
      have := congrArg List.length h
      simp at this
      omega
    rw [getElem?_of_take_eq mem mem2 mem.length k hv.1 (by rw [h, List.take_length])]
    exact ⟨by omega, hv.2⟩

theorem elems_length (mem : Memory) (sl : Slice) (hv : sl.Valid mem) :
    (sl.elems mem).length = sl.len := by
  unfold Slice.Valid at hv
  unfold Slice.elems Slice.cells
  cases ha : sl.array with
  | none => rw [ha] at hv; simp [hv]
  | some k => rw [ha] at hv; simp [hv.2]

theorem goAppend_length_le (grow : Nat → Nat → Nat) (mem : Memory) (sl : Slice)
    (xs : List Selector) : mem.length ≤ (goAppend grow mem sl xs).2.length := by
  unfold goAppend
  split
  · cases sl.array <;> simp
  · simp

theorem goAppend_frame (grow : Nat → Nat → Nat) (mem : Memory) (sl : Slice)
    (xs : List Selector) (n : Nat) (hn : n ≤ mem.length)
    (hfresh : ∀ k, sl.array = some k → n ≤ k) :
    (goAppend grow mem sl xs).2.take n = mem.take n := by
  unfold goAppend
  split
  · cases ha : sl.array with
    | none => rfl
    | some k =>
      simp only
      have hk := hfresh k ha
      apply List.ext_getElem?
      intro i
      by_cases hi : i < n
      · rw [List.getElem?_take_of_lt hi, List.getElem?_take_of_lt hi]
        rw [List.getElem?_set_ne (by omega)]
      · simp [List.getElem?_take, hi]
  · simp only
    rw [List.take_append_of_le_length hn]

theorem goAppend_array (grow : Nat → Nat → Nat) (mem : Memory) (sl : Slice)
    (xs : List Selector) :
    (goAppend grow mem sl xs).1.array = sl.array ∨
      (goAppend grow mem sl xs).1.array = some mem.length := by
  unfold goAppend
  split
  · cases ha : sl.array with
    | none => left; simp [ha]
    | some k => left; rfl
  · right; rfl

theorem goAppend_in_place (grow : Nat → Nat → Nat) (mem : Memory) (k len : Nat)
    (xs : List Selector) (hk : k < mem.length) (hlen : len ≤ (mem[k]?.getD []).length)
    (hcap : len + xs.length ≤ (mem[k]?.getD []).length) :
    (goAppend grow mem ⟨some k, len⟩ xs).1.elems (goAppend grow mem ⟨some k, len⟩ xs).2
        = (mem[k]?.getD []).take len ++ xs ∧
    (goAppend grow mem ⟨some k, len⟩ xs).1.Valid (goAppend grow mem ⟨some k, len⟩ xs).2 := by
  have hc : len + xs.length ≤ Slice.cap mem ⟨some k, len⟩ := hcap
  unfold goAppend
  rw [if_pos hc]
  simp only [Slice.cells, Slice.elems, Slice.Valid]
  have hget : (mem.set k (List.take len (mem[k]?.getD []) ++ xs
      ++ List.drop (len + xs.length) (mem[k]?.getD [])))[k]?
      = some (List.take len (mem[k]?.getD []) ++ xs
        ++ List.drop (len + xs.length) (mem[k]?.getD [])) := by
    rw [List.getElem?_set_self hk]
  rw [hget]
  simp only [Option.getD_some]
  have hl : (List.take len (mem[k]?.getD []) ++ xs).length = len + xs.length := by
    simp [hlen]
  refine ⟨?_, ?_, ?_⟩
  · rw [List.take_append_of_le_length (by omega), List.take_of_length_le (by omega)]
  · simp [hk]
  · simp only [List.length_append, List.length_drop]
    simp only [List.length_append] at hl
    omega

theorem goAppend_allocate (grow : Nat → Nat → Nat) (mem : Memory) (sl : Slice)
    (xs : List Selector) (hv : sl.Valid mem) (hcap : ¬ (sl.len + xs.length ≤ sl.cap mem)) :
    (goAppend grow mem sl xs).1.elems (goAppend grow mem sl xs).2 = sl.elems mem ++ xs ∧
    (goAppend grow mem sl xs).1.Valid (goAppend grow mem sl xs).2 := by
  unfold goAppend
  rw [if_neg hcap]
  simp only [Slice.elems, Slice.Valid, Slice.cells]
  have hl := elems_length mem sl hv
  simp only [Slice.elems, Slice.cells] at hl
  have hget : ∀ (a : List Selector), (mem ++ [a])[mem.length]? = some a := by
    intro a
    simp
  rw [hget]
  simp only [Option.getD_some]
  refine ⟨?_, ?_, ?_⟩
  · rw [List.take_append_of_le_length (by simp only [List.length_append]; omega),
      List.take_of_length_le (by simp only [List.length_append]; omega)]
  · simp
  · simp only [List.length_append, List.length_replicate]
    omega

theorem goAppend_elems_valid (grow : Nat → Nat → Nat) (mem : Memory) (sl : Slice)
    (xs : List Selector) (hv : sl.Valid mem) :
    (goAppend grow mem sl xs).1.elems (goAppend grow mem sl xs).2 = sl.elems mem ++ xs ∧
    (goAppend grow mem sl xs).1.Valid (goAppend grow mem sl xs).2 := by
  by_cases hcap : sl.len + xs.length ≤ sl.cap mem
  · rcases sl with ⟨arr, len⟩
    cases arr with
    | none =>
      have hlen : len = 0 := hv
      have hxs : xs = [] := by
        simp only [Slice.cap, Slice.cells, List.length_nil] at hcap
        exact List.length_eq_zero.mp (by omega)
      subst hxs
      subst hlen
      simp [goAppend, Slice.cap, Slice.cells, Slice.elems, Slice.Valid]
    | some k =>
      exact goAppend_in_place grow mem k len xs hv.1 hv.2 hcap
  · exact goAppend_allocate grow mem sl xs hv hcap

theorem newSelectors_frame (grow : Nat → Nat → Nat) (mem : Memory) (sl : Slice)
    (more : List Selector) :
    (InMemory.newSelectors grow mem sl more).2.take mem.length = mem := by
  unfold InMemory.newSelectors
  simp only
  have h1 := goAppend_frame grow mem Slice.nil (sl.elems mem) mem.length (Nat.le_refl _)
    (by intro k hk; cases hk)
  have hlen := goAppend_length_le grow mem Slice.nil (sl.elems mem)
  have h2 := goAppend_frame grow (goAppend grow mem Slice.nil (sl.elems mem)).2
    (goAppend grow mem Slice.nil (sl.elems mem)).1 more mem.length hlen
    (by
      intro k hk
      rcases goAppend_array grow mem Slice.nil (sl.elems mem) with h | h
      · rw [h] at hk; cases hk
      · rw [h] at hk
        injection hk with hk
        omega)
  rw [h2, h1, List.take_length]

theorem newSelectors_elems_valid (grow : Nat → Nat → Nat) (mem : Memory) (sl : Slice)
    (more : List Selector) :
    (InMemory.newSelectors grow mem sl more).1.elems (InMemory.newSelectors grow mem sl more).2
      = sl.elems mem ++ more ∧
    (InMemory.newSelectors grow mem sl more).1.Valid
      (InMemory.newSelectors grow mem sl more).2 := by
  unfold InMemory.newSelectors
  simp only
  have hnil : Slice.nil.Valid mem := rfl
  obtain ⟨e1, v1⟩ := goAppend_elems_valid grow mem Slice.nil (sl.elems mem) hnil
  obtain ⟨e2, v2⟩ := goAppend_elems_valid grow (goAppend grow mem Slice.nil (sl.elems mem)).2
    (goAppend grow mem Slice.nil (sl.elems mem)).1 more v1
  refine ⟨?_, v2⟩
  rw [e2, e1]
  simp [Slice.elems, Slice.cells, Slice.nil]

theorem slice_snoc (mem : Memory) (sl : Slice) (init : List Selector) (l : Selector)
    (hv : sl.Valid mem) (h : sl.elems mem = init ++ [l]) :
    sl.len ≠ 0 ∧ (sl.elems mem)[sl.len - 1]? = some l ∧
      (⟨sl.array, sl.len - 1⟩ : Slice).elems mem = init := by
  have hl := elems_length mem sl hv
  rw [h] at hl
  simp only [List.length_append, List.length_singleton] at hl
  refine ⟨by omega, ?_, ?_⟩
  · rw [h]
    have : sl.len - 1 = init.length := by omega
    rw [this]
    simp
  · have ht : (sl.elems mem).take (sl.len - 1) = init := by
      rw [h]
      have : sl.len - 1 = init.length := by omega
      rw [this]
      simp
    unfold Slice.elems at ht ⊢
    rw [List.take_take] at ht
    have hmin : min (sl.len - 1) sl.len = sl.len - 1 := by omega
    rw [hmin] at ht
    exact ht

theorem apply_frame (grow : Nat → Nat → Nat) (mem : Memory) (p : InMemory.Selection σ E)
    (op : Builder) : (p.apply grow mem op).2.take mem.length = mem := by
  cases op with
  | Find v =>
    simp only [InMemory.Selection.apply, InMemory.Selection.Find]
    split
    · exact newSelectors_frame grow mem _ _
    · exact newSelectors_frame grow mem _ _
  | FindXPath v => exact newSelectors_frame grow mem _ _
  | FindLink v => exact newSelectors_frame grow mem _ _
  | At i =>
    simp only [InMemory.Selection.apply, InMemory.Selection.At]
    split
    · exact newSelectors_frame grow mem _ _
    · exact newSelectors_frame grow mem _ _
  | All => exact newSelectors_frame grow mem _ _

theorem apply_valid (grow : Nat → Nat → Nat) (mem : Memory) (p : InMemory.Selection σ E)
    (op : Builder) : (p.apply grow mem op).1.selectors.Valid (p.apply grow mem op).2 := by
  cases op with
  | Find v =>
    simp only [InMemory.Selection.apply, InMemory.Selection.Find]
    split
    · exact (newSelectors_elems_valid grow mem _ _).2
    · exact (newSelectors_elems_valid grow mem _ _).2
  | FindXPath v => exact (newSelectors_elems_valid grow mem _ _).2
  | FindLink v => exact (newSelectors_elems_valid grow mem _ _).2
  | At i =>
    simp only [InMemory.Selection.apply, InMemory.Selection.At]
    split
    · exact (newSelectors_elems_valid grow mem _ _).2
    · exact (newSelectors_elems_valid grow mem _ _).2
  | All => exact (newSelectors_elems_valid grow mem _ _).2

theorem view_frame (mem mem2 : Memory) (q : InMemory.Selection σ E)
    (hq : q.selectors.Valid mem) (h : mem2.take mem.length = mem) :
    q.view mem2 = q.view mem := by
  simp [InMemory.Selection.view, elems_of_take_eq mem mem2 q.selectors hq h]

theorem subSelection_view (grow : Nat → Nat → Nat) (mem : Memory)
    (p : InMemory.Selection σ E) (u v : String) :
    (p.subSelection grow mem u v).1.view (p.subSelection grow mem u v).2
      = (p.view mem).subSelection u v := by
  simp [InMemory.Selection.subSelection, InMemory.Selection.view, Selection.subSelection,
    Agouti.newSelectors, (newSelectors_elems_valid grow mem p.selectors _).1]

theorem All_view (grow : Nat → Nat → Nat) (mem : Memory) (p : InMemory.Selection σ E) :
    (p.All grow mem).1.view (p.All grow mem).2 = (p.view mem).All := by
  simp [InMemory.Selection.All, InMemory.Selection.view, Selection.All, Agouti.newSelectors,
    (newSelectors_elems_valid grow mem p.selectors []).1]

theorem At_view (grow : Nat → Nat → Nat) (mem : Memory) (p : InMemory.Selection σ E)
    (hp : p.selectors.Valid mem) (i : Int) :
    (p.At grow mem i).1.view (p.At grow mem i).2 = (p.view mem).At i := by
  rcases p with ⟨client, sl, all⟩
  rcases List.eq_nil_or_concat (sl.elems mem) with hnil | ⟨init, l, hcons⟩
  · have hlen : sl.len = 0 := by
      have := elems_length mem sl hp
      rw [hnil] at this
      simpa using this.symm
    unfold InMemory.Selection.At
    simp only [hlen, if_true, InMemory.Selection.view]
    rw [(newSelectors_elems_valid grow mem sl []).1, hnil]
    rfl
  · rw [List.concat_eq_append] at hcons
    obtain ⟨hne, hlast, hinit⟩ := slice_snoc mem sl init l hp hcons
    unfold InMemory.Selection.At
    simp only [if_neg hne, hlast, Option.getD_some, InMemory.Selection.view]
    rw [(newSelectors_elems_valid grow mem _ _).1, hinit, hcons, At_snoc]

theorem Find_view (grow : Nat → Nat → Nat) (mem : Memory) (p : InMemory.Selection σ E)
    (hp : p.selectors.Valid mem) (v : String) :
    (p.Find grow mem v).1.view (p.Find grow mem v).2 = (p.view mem).Find v := by
  rcases List.eq_nil_or_concat (p.selectors.elems mem) with hnil | ⟨init, l, hcons⟩
  · have hlen : p.selectors.len = 0 := by
      have := elems_length mem p.selectors hp
      rw [hnil] at this
      simpa using this.symm
    have hf : p.Find grow mem v = p.subSelection grow mem "css selector" v := by
      simp [InMemory.Selection.Find, hlen]
    rw [hf, subSelection_view]
    simp only [InMemory.Selection.view, hnil, Find_nil]
    rfl
  · rw [List.concat_eq_append] at hcons
    obtain ⟨hne, hlast, hinit⟩ := slice_snoc mem p.selectors init l hp hcons
    have hv : p.view mem = ⟨p.Client, init ++ [l], p.acceptAll⟩ := by
      simp [InMemory.Selection.view, hcons]
    by_cases hc : l.Using = "css selector" ∧ l.Indexed = false
    · have hf : p.Find grow mem v = p.mergedSelection grow mem v := by
        unfold InMemory.Selection.Find
        simp only [hlast, Option.getD_some]
        rw [if_pos ⟨hne, hc⟩]
      rw [hf, hv, Find_snoc, if_pos hc]
      unfold InMemory.Selection.mergedSelection
      simp only [hlast, Option.getD_some, InMemory.Selection.view]
      rw [(newSelectors_elems_valid grow mem _ _).1, hinit]
    · have hf : p.Find grow mem v = p.subSelection grow mem "css selector" v := by
        unfold InMemory.Selection.Find
        simp only [hlast, Option.getD_some]
        rw [if_neg (fun h => hc h.2)]
      rw [hf, subSelection_view, hv, Find_snoc, if_neg hc]
      simp [Selection.subSelection, Agouti.newSelectors]

theorem apply_view (grow : Nat → Nat → Nat) (mem : Memory) (p : InMemory.Selection σ E)
    (hp : p.selectors.Valid mem) (op : Builder) :
    (p.apply grow mem op).1.view (p.apply grow mem op).2 = (p.view mem).apply op := by
  cases op with
  | Find v => exact Find_view grow mem p hp v
  | FindXPath v => exact subSelection_view grow mem p _ _
  | FindLink v => exact subSelection_view grow mem p _ _
  | At i => exact At_view grow mem p hp i
  | All => exact All_view grow mem p

/-! ## C17 -/

/-- C17: the builders never mutate an existing chain. With the criteria held in Go slices:
for a chain `p` of the memory and a child `p.Find(a)` derived from it, deriving a further
chain from `p` by any builder call `op` (`Find`, `FindXPath`, `FindLink`, `At`, `All`) leaves
`p` and the child with exactly the client, criteria and flag they had, and the new chain is
the one the builder describes. More generally a builder call writes into no array that
existed before it, so every chain `q` of the memory is left as it was. -/
theorem C17_builders_do_not_mutate (grow : Nat → Nat → Nat) (mem : Memory)
    (p : InMemory.Selection σ E) (hp : p.selectors.Valid mem) (a : String) (op : Builder) :
    (p.Find grow mem a).1.view (p.Find grow mem a).2 = (p.view mem).Find a ∧
    p.view (p.Find grow mem a).2 = p.view mem ∧
    p.view (p.apply grow (p.Find grow mem a).2 op).2 = p.view mem ∧
    (p.Find grow mem a).1.view (p.apply grow (p.Find grow mem a).2 op).2
      = (p.view mem).Find a ∧
    (p.apply grow (p.Find grow mem a).2 op).1.view (p.apply grow (p.Find grow mem a).2 op).2
      = (p.view mem).apply op ∧
    (∀ q : InMemory.Selection σ E, q.selectors.Valid mem →
      q.view (p.apply grow mem op).2 = q.view mem) ∧
    (p.apply grow mem op).2.take mem.length = mem := by
  have hchild := Find_view grow mem p hp a
  have hf1 : (p.Find grow mem a).2.take mem.length = mem :=
    apply_frame grow mem p (Builder.Find a)
  have hp1 : p.selectors.Valid (p.Find grow mem a).2 :=
    valid_of_take_eq mem _ p.selectors hp hf1
  have hpv1 : p.view (p.Find grow mem a).2 = p.view mem := view_frame mem _ p hp hf1
  have hc1 : (p.Find grow mem a).1.selectors.Valid (p.Find grow mem a).2 :=
    apply_valid grow mem p (Builder.Find a)
  have hf2 := apply_frame grow (p.Find grow mem a).2 p op
  refine ⟨hchild, hpv1, ?_, ?_, ?_, ?_, apply_frame grow mem p op⟩
  · rw [view_frame _ _ p hp1 hf2, hpv1]
  · rw [view_frame _ _ _ hc1 hf2, hchild]
  · rw [apply_view grow _ p hp1 op, hpv1]
  · intro q hq
    exact view_frame mem _ q hq (apply_frame grow mem p op)

/-- C17 on the chains of `selection_test.go`: with
`parent = FindXPath("//one").FindXPath("//two").FindXPath("//parent")`, the first child
`parent.Find("#firstChild")` still renders as
`XPath: //one | XPath: //two | XPath: //parent | CSS: #firstChild` after
`parent.Find("#secondChild")` has been built. -/
theorem C17_builders_do_not_mutate_witness :
    testParent.1.selectors.Valid testParent.2 ∧
    (testParent.1.Find doubling testParent.2 "#firstChild").1.view
        (testParent.1.apply doubling (testParent.1.Find doubling testParent.2 "#firstChild").2
          (Builder.Find "#secondChild")).2
      = (testParent.1.view testParent.2).Find "#firstChild" ∧
    ((testParent.1.Find doubling testParent.2 "#firstChild").1.view
        (testParent.1.apply doubling (testParent.1.Find doubling testParent.2 "#firstChild").2
          (Builder.Find "#secondChild")).2).String
      = "XPath: //one | XPath: //two | XPath: //parent | CSS: #firstChild" ∧
    ((testParent.1.apply doubling (testParent.1.Find doubling testParent.2 "#firstChild").2
        (Builder.Find "#secondChild")).1.view
      (testParent.1.apply doubling (testParent.1.Find doubling testParent.2 "#firstChild").2
        (Builder.Find "#secondChild")).2).String
      = "XPath: //one | XPath: //two | XPath: //parent | CSS: #secondChild" :=
  ⟨by decide,
   (C17_builders_do_not_mutate doubling testParent.2 testParent.1 (by decide) "#firstChild"
      (Builder.Find "#secondChild")).2.2.2.1,
   by decide, by decide⟩

/-! ## C21 -/

/-- C21: the two cardinality entry points agree on chains that are not in All-mode. For such a
chain and every provider, `getSelectedElement` returns the element `e` without error if and
only if `getSelectedElements` returns the list `[e]` without error, in the same state;
`getSelectedElements` never returns any other list; one returns an error exactly when the
other does, and one panics exactly when the other does; and both leave the same state. -/
theorem C21_entry_points_agree (dom : E → Retriever σ E) (s : Selection σ E) (st : σ)
    (hall : s.acceptAll = false) :
    (∀ (e : E) (st1 : σ),
      s.getSelectedElement dom st = (.ret (some e) none, st1) ↔
        s.getSelectedElements dom st = (.ret [e] none, st1)) ∧
    (∀ (L : List E) (st1 : σ), s.getSelectedElements dom st = (.ret L none, st1) →
      ∃ e, L = [e]) ∧
    ((∃ (v : Option E) (err : String), (s.getSelectedElement dom st).1 = .ret v (some err)) ↔
      (∃ (v : List E) (err : String), (s.getSelectedElements dom st).1 = .ret v (some err))) ∧
    ((s.getSelectedElement dom st).1 = .panic ↔ (s.getSelectedElements dom st).1 = .panic) ∧
    (s.getSelectedElement dom st).2 = (s.getSelectedElements dom st).2 := by
  unfold Selection.getSelectedElement Selection.getSelectedElements
  simp only [hall, Bool.false_eq_true, if_false, and_true]
  rcases hg : s.getElements dom st with ⟨o, s1⟩
  cases o with
  | panic => simp
  | ret l err =>
    cases err with
    | some er => simp
    | none =>
      match l with
      | [] => simp
      | [x] => simp
      | x :: y :: r => simp

/-- C21 on the test document: `Find("#selector").At(1)` is selected by both entry points, and
`Find("#selector")`, which resolves to two elements, is refused by both. -/
theorem C21_entry_points_agree_witness :
    (testSelection.At 1).acceptAll = false ∧
    (testSelection.At 1).getSelectedElements (recordingDom testChild) []
      = (.ret [2] none, [(none, ⟨"css selector", "#selector", 1, true⟩)]) ∧
    (testSelection.At 1).getSelectedElement (recordingDom testChild) []
      = (.ret (some 2) none, [(none, ⟨"css selector", "#selector", 1, true⟩)]) ∧
    ((∃ (v : Option Nat) (err : String),
        (testSelection.getSelectedElement (recordingDom testChild) []).1 = .ret v (some err)) ↔
      (∃ (v : List Nat) (err : String),
        (testSelection.getSelectedElements (recordingDom testChild) []).1
          = .ret v (some err))) :=
  ⟨by decide, by decide,
   ((C21_entry_points_agree (recordingDom testChild) (testSelection.At 1) []
      (by decide)).1 2 _).mpr (by decide),
   (C21_entry_points_agree (recordingDom testChild) testSelection [] (by decide)).2.2.1⟩

/-! ## C22 -/

theorem getElements_indexed_one (r : Retriever σ E) (c : Selector) (st st1 : σ) (L : List E)
    (hidx : c.Indexed = true) (h : getElements r c st = (.ret L none, st1)) :
    ∃ x, L = [x] := by
  obtain ⟨_, x, _, _, _, hx⟩ :=
    matchesOf_indexed r c st st1 L hidx ((getElements_ok_iff r c st st1 L).mp h)
  exact ⟨x, hx⟩

theorem outerLoop_indexed_one (dom : E → Retriever σ E) (cs : List Selector) (p : E)
    (st st1 : σ) (L : List E) (hidx : ∀ c ∈ cs, c.Indexed = true)
    (h : outerLoop dom cs [p] st = (.ret L none, st1)) : ∃ x, L = [x] := by
  induction cs generalizing p st with
  | nil =>
    simp only [outerLoop, Prod.mk.injEq, Outcome.ret.injEq, and_true] at h
    exact ⟨p, h.1.symm⟩
  | cons c cs ih =>
    simp only [outerLoop, innerLoop] at h
    rcases hg : getElements (dom p) c st with ⟨o, s1⟩
    rw [hg] at h
    cases o with
    | panic => simp at h
    | ret v err =>
      cases err with
      | some er => simp at h
      | none =>
        obtain ⟨x, hx⟩ := getElements_indexed_one (dom p) c st s1 v
          (hidx c (List.mem_cons_self c cs)) hg
        subst hx
        simp only [List.nil_append] at h
        exact ih x s1 (fun d hd => hidx d (List.mem_cons_of_mem c hd)) h

theorem package_getElements_err_val (r : Retriever σ E) (c : Selector) (st st1 : σ)
    (v : List E) (e : String) (h : getElements r c st = (.ret v (some e), st1)) : v = [] := by
  unfold getElements at h
  rcases hr : r c st with ⟨⟨l, err⟩, s1⟩
  rw [hr] at h
  cases err with
  | some er =>
    simp only [Prod.mk.injEq, Outcome.ret.injEq] at h
    exact h.1.1.symm
  | none =>
    simp only at h
    split at h
    · split at h
      · simp only [Prod.mk.injEq, Outcome.ret.injEq] at h
        exact h.1.1.symm
      · split at h
        · split at h <;> simp at h
        · simp at h
    · simp at h

theorem innerLoop_err_val (dom : E → Retriever σ E) (c : Selector) (l acc v : List E)
    (st st1 : σ) (e : String) (h : innerLoop dom c l acc st = (.ret v (some e), st1)) :
    v = [] := by
  induction l generalizing acc st with
  | nil => simp [innerLoop] at h
  | cons p rest ih =>
    simp only [innerLoop] at h
    rcases hg : getElements (dom p) c st with ⟨o, s1⟩
    rw [hg] at h
    cases o with
    | panic => simp at h
    | ret w err =>
      cases err with
      | some er =>
        simp only [Prod.mk.injEq, Outcome.ret.injEq] at h
        exact h.1.1.symm
      | none => exact ih (acc ++ w) s1 h

theorem outerLoop_err_val (dom : E → Retriever σ E) (cs : List Selector) (l v : List E)
    (st st1 : σ) (e : String) (h : outerLoop dom cs l st = (.ret v (some e), st1)) :
    v = [] := by
  induction cs generalizing l st with
  | nil => simp [outerLoop] at h
  | cons c cs ih =>
    simp only [outerLoop] at h
    rcases hi : innerLoop dom c l [] st with ⟨o, s1⟩
    rw [hi] at h
    cases o with
    | panic => simp at h
    | ret w err =>
      cases err with
      | some er =>
        simp only [Prod.mk.injEq, Outcome.ret.injEq] at h
        exact h.1.1.symm
      | none => exact ih w s1 h

theorem getElements_err_val (dom : E → Retriever σ E) (s : Selection σ E) (st st1 : σ)
    (v : List E) (e : String) (h : s.getElements dom st = (.ret v (some e), st1)) :
    v = [] := by
  unfold Selection.getElements at h
  cases hsel : s.selectors with
  | nil =>
    rw [hsel] at h
    simp only [Prod.mk.injEq, Outcome.ret.injEq] at h
    exact h.1.1.symm
  | cons c0 cs =>
    rw [hsel] at h
    simp only at h
    rcases hg : getElements s.Client c0 st with ⟨o, s1⟩
    rw [hg] at h
    cases o with
    | panic => simp at h
    | ret w err =>
      cases err with
      | some er =>
        simp only [Prod.mk.injEq, Outcome.ret.injEq] at h
        exact h.1.1.symm
      | none => exact outerLoop_err_val dom cs w v s1 st1 e h

theorem getElements_fully_indexed_one (dom : E → Retriever σ E) (s : Selection σ E)
    (st st1 : σ) (L : List E) (hidx : ∀ c ∈ s.selectors, c.Indexed = true)
    (h : s.getElements dom st = (.ret L none, st1)) : ∃ x, L = [x] := by
  unfold Selection.getElements at h
  cases hsel : s.selectors with
  | nil =>
    rw [hsel] at h
    simp at h
  | cons c0 cs =>
    rw [hsel] at h hidx
    simp only at h
    rcases hg : getElements s.Client c0 st with ⟨o, s1⟩
    rw [hg] at h
    cases o with
    | panic => simp at h
    | ret w err =>
      cases err with
      | some er => simp at h
      | none =>
        obtain ⟨p, hp⟩ := getElements_indexed_one s.Client c0 st s1 w
          (hidx c0 (List.mem_cons_self c0 cs)) hg
        subst hp
        exact outerLoop_indexed_one dom cs p s1 st1 L
          (fun d hd => hidx d (List.mem_cons_of_mem c0 hd)) h

/-- C22: a fully indexed chain resolves to one element. For a chain in which every criterion
is indexed and every provider, whenever `Selection.getElements` succeeds its result has
exactly one element, `Count` returns 1 and SelectMultiple returns that element. SelectMultiple
adds no error of its own on such a chain, so it never fails with the requires-All error: its
outcome is the outcome of `getElements`. (With a negative index, or on the empty chain,
`getElements` does not succeed.) -/
theorem C22_fully_indexed_chain (dom : E → Retriever σ E) (s : Selection σ E) (st : σ)
    (hidx : ∀ c ∈ s.selectors, c.Indexed = true) :
    (∀ (L : List E) (st1 : σ), s.getElements dom st = (.ret L none, st1) →
      L.length = 1 ∧
      s.Count dom st = (.ret 1 none, st1) ∧
      s.getSelectedElements dom st = (.ret L none, st1)) ∧
    s.getSelectedElements dom st = s.getElements dom st := by
  have hok : ∀ (L : List E) (st1 : σ), s.getElements dom st = (.ret L none, st1) →
      L.length = 1 ∧
      s.Count dom st = (.ret 1 none, st1) ∧
      s.getSelectedElements dom st = (.ret L none, st1) := by
    intro L st1 h
    obtain ⟨x, hx⟩ := getElements_fully_indexed_one dom s st st1 L hidx h
    subst hx
    refine ⟨rfl, ?_, ?_⟩
    · simp [Selection.Count, h]
    · simp [Selection.getSelectedElements, h]
  refine ⟨hok, ?_⟩
  rcases hg : s.getElements dom st with ⟨o, s1⟩
  cases o with
  | panic => simp [Selection.getSelectedElements, hg]
  | ret v err =>
    cases err with
    | some er =>
      have hv := getElements_err_val dom s st s1 v er hg
      subst hv
      simp [Selection.getSelectedElements, hg]
    | none => exact (hok v s1 hg).2.2

/-- C22 on the test document: `Find("#selector").At(1).FindXPath("children").At(1)` resolves
to the one element `22`. -/
theorem C22_fully_indexed_chain_witness :
    (∀ c ∈ (((testSelection.At 1).FindXPath "children").At 1).selectors, c.Indexed = true) ∧
    (((testSelection.At 1).FindXPath "children").At 1).getElements (recordingDom testChild) []
      = (.ret [22] none,
          [(none, ⟨"css selector", "#selector", 1, true⟩),
           (some 2, ⟨"xpath", "children", 1, true⟩)]) ∧
    (((testSelection.At 1).FindXPath "children").At 1).Count (recordingDom testChild) []
      = (.ret 1 none,
          [(none, ⟨"css selector", "#selector", 1, true⟩),
           (some 2, ⟨"xpath", "children", 1, true⟩)]) :=
  ⟨by decide, by decide,
   ((C22_fully_indexed_chain (recordingDom testChild)
      (((testSelection.At 1).FindXPath "children").At 1) [] (by decide)).1 [22]
      [(none, ⟨"css selector", "#selector", 1, true⟩),
       (some 2, ⟨"xpath", "children", 1, true⟩)] (by decide)).2.1⟩

/-! ## C23 -/

theorem outerLoop_of_nil (dom : E → Retriever σ E) (cs : List Selector) (st : σ) :
    outerLoop dom cs [] st = (.ret [] none, st) := by
  induction cs with
  | nil => rfl
  | cons c cs ih => simpa [outerLoop, innerLoop] using ih

/-- C23: an empty level makes the rest of the chain vacuous. For a chain whose first criterion
is unindexed, when the root returns the empty list for it, `Selection.getElements` returns the
empty list without error and `Count` returns 0 without error, whatever the remaining criteria
are (indexed or not) and whatever the element handles would answer: the state is the one the
root call left, so no element is queried and a recording provider records the root call
only. -/
theorem C23_empty_level (dom : E → Retriever σ E) (s : Selection σ E) (st st1 : σ)
    (c0 : Selector) (cs : List Selector) (hsel : s.selectors = c0 :: cs)
    (hidx : c0.Indexed = false) (hroot : s.Client c0 st = (([], none), st1)) :
    s.getElements dom st = (.ret [] none, st1) ∧
    s.Count dom st = (.ret 0 none, st1) ∧
    (∀ (root : Selector → List E × Option String)
        (child : E → Selector → List E × Option String) (all : Bool) (log : List (Call E)),
      root c0 = ([], none) →
        Selection.getElements (recordingDom child) ⟨recordingClient root, c0 :: cs, all⟩ log
          = (.ret [] none, log ++ [(none, c0)])) := by
  have hgen : ∀ (σ2 : Type) (d : E → Retriever σ2 E) (client : Retriever σ2 E) (all : Bool)
      (t t1 : σ2), client c0 t = (([], none), t1) →
      Selection.getElements d ⟨client, c0 :: cs, all⟩ t = (.ret [] none, t1) := by
    intro σ2 d client all t t1 h
    simp [Selection.getElements, getElements, h, hidx, outerLoop_of_nil]
  have hg : s.getElements dom st = (.ret [] none, st1) := by
    rcases s with ⟨client, sels, all⟩
    simp only at hsel hroot
    subst hsel
    exact hgen σ dom client all st st1 hroot
  refine ⟨hg, ?_, ?_⟩
  · simp [Selection.Count, hg]
  · intro root child all log hr
    exact hgen _ (recordingDom child) (recordingClient root) all log _
      (by simp [recordingClient, hr])

/-- C23 with a root that finds nothing and element handles that always fail: the chain
`Find("#selector").FindXPath("children").At(5)` resolves to the empty list after the root
call alone, and `Count` returns 0. -/
theorem C23_empty_level_witness :
    ((((Selection.new (recordingClient emptyRoot)).Find "#selector").FindXPath
        "children").At 5).selectors
      = ⟨"css selector", "#selector", 0, false⟩ :: [⟨"xpath", "children", 5, true⟩] ∧
    recordingClient emptyRoot ⟨"css selector", "#selector", 0, false⟩ []
      = (([], none), [(none, ⟨"css selector", "#selector", 0, false⟩)]) ∧
    ((((Selection.new (recordingClient emptyRoot)).Find "#selector").FindXPath
        "children").At 5).getElements (recordingDom brokenChild) []
      = (.ret [] none, [(none, ⟨"css selector", "#selector", 0, false⟩)]) ∧
    ((((Selection.new (recordingClient emptyRoot)).Find "#selector").FindXPath
        "children").At 5).Count (recordingDom brokenChild) []
      = (.ret 0 none, [(none, ⟨"css selector", "#selector", 0, false⟩)]) :=
  ⟨by decide, by decide,
   (C23_empty_level (recordingDom brokenChild)
      ((((Selection.new (recordingClient emptyRoot)).Find "#selector").FindXPath
        "children").At 5) [] [(none, ⟨"css selector", "#selector", 0, false⟩)]
      ⟨"css selector", "#selector", 0, false⟩ [⟨"xpath", "children", 5, true⟩]
      (by decide) rfl (by decide)).1,
   (C23_empty_level (recordingDom brokenChild)
      ((((Selection.new (recordingClient emptyRoot)).Find "#selector").FindXPath
        "children").At 5) [] [(none, ⟨"css selector", "#selector", 0, false⟩)]
      ⟨"css selector", "#selector", 0, false⟩ [⟨"xpath", "children", 5, true⟩]
      (by decide) rfl (by decide)).2.1⟩

end Agouti
